import Mathlib

/-!
Verification development for the looksrate face-analysis core.

The TypeScript sources are shallowly embedded as Lean definitions:

* JavaScript numbers are modelled by exact fields: `ℚ` where the code only
  performs field operations and comparisons (so that concrete runs can be
  evaluated by `decide`), and `ℝ` where square roots or trigonometry occur
  (`Math.sqrt`, `Math.atan2`, `Math.cos`, ...).  Division by zero follows the
  Lean convention `x / 0 = 0`, except in `quality.ts` where the behaviour of
  the `0 / 0` divisions is the point at issue: there the result of a division
  is an `Option ℚ`, `none` playing the role of the IEEE `NaN` that JavaScript
  produces, and the surrounding arithmetic propagates `none` exactly as
  JavaScript propagates `NaN` (including `Math.max(0, NaN) = NaN`).
* `Math.round` is `fun x => Int.floor (x + 1/2)` (JavaScript rounds ties
  towards positive infinity).
* Keypoint sets are `List (Point K)` indexed with a total read `kpAt`
  (out-of-range reads yield the origin) and functional updates.
* Square roots of sums of squares (`dist`) are kept in `ℝ` via `Real.sqrt`;
  concrete evaluations in witnesses use axis-aligned point pairs, for which
  `dist` reduces to an absolute difference of coordinates.
-/

namespace Looksrate

/-- JavaScript `Math.round` on the integer side: `Math.round x = ⌊x + 0.5⌋`
(ties are rounded towards positive infinity). -/
noncomputable def jsRoundZ (x : ℝ) : ℤ := ⌊x + 1/2⌋

/-- JavaScript `Math.round`, returned as a real number as the code keeps on
computing with the rounded score. -/
noncomputable def jsRound (x : ℝ) : ℝ := (jsRoundZ x : ℝ)

/-- Embedding of `clamp` from `analyzeFace` (`Math.max(a, Math.min(x, b))`). -/
noncomputable def clamp (x a b : ℝ) : ℝ := max a (min x b)

/-- Embedding of `norm` from `analyzeFace`:
`clamp(((x - min) / (max - min)) * 100, 0, 100)`. -/
noncomputable def norm (x lo hi : ℝ) : ℝ := clamp ((x - lo) / (hi - lo) * 100) 0 100

section Quality

/-!
Embedding of `src/lib/quality.ts` (`getQualityMetrics`).

The function finally applies `Math.sqrt` to the contrast and sharpness
accumulators; since `Real.sqrt` is not computable we keep the radicands
(`contrastSq`, `sharpnessSq`).  The code values are the (monotone, injective
on nonnegatives) square roots of these, so every statement about
contrast/sharpness is phrased on the radicands.

`brightness = sum / count` and `sharpness² = lapVar / count` divide by the
pixel count; when the image is empty both divisions are `0 / 0`, which is
`NaN` in JavaScript.  `JsVal := Option ℚ` models a JavaScript number that may
be `NaN` (`none`); the only `NaN` source in this function is a division whose
denominator is zero.
-/

/-- A JavaScript number that may be `NaN` (`none`). -/
abbrev JsVal := Option ℚ

/-- JavaScript division as used in `getQualityMetrics`: every division there
has numerator and denominator vanishing together, so a zero denominator means
the JavaScript result is `0 / 0 = NaN`, modelled by `none`. -/
def jsDiv (a b : ℚ) : JsVal := if b = 0 then none else some (a / b)

/-- Subtraction on possibly-`NaN` values (`NaN` propagates). -/
def jsSub (a b : JsVal) : JsVal :=
  match a, b with
  | some x, some y => some (x - y)
  | _, _ => none

/-- Multiplication on possibly-`NaN` values (`NaN` propagates). -/
def jsMul (a b : JsVal) : JsVal :=
  match a, b with
  | some x, some y => some (x * y)
  | _, _ => none

/-- JavaScript `Math.max(0, ·)`: note `Math.max(0, NaN) = NaN`, so `none`
propagates. -/
def jsMax0 (a : JsVal) : JsVal :=
  match a with
  | some x => some (max 0 x)
  | none => none

/-- One RGBA pixel of the canvas buffer (the alpha channel is never read by
`getQualityMetrics`, so it is omitted). -/
structure Rgb where
  r : ℕ
  g : ℕ
  b : ℕ
deriving DecidableEq, Repr

/-- A decoded raster: width, height and the pixel buffer in row-major order. -/
structure Raster where
  width : ℕ
  height : ℕ
  data : List Rgb
deriving DecidableEq, Repr

/-- Luminance of a pixel: `0.299 * R + 0.587 * G + 0.114 * B`. -/
def lum (p : Rgb) : ℚ := 0.299 * p.r + 0.587 * p.g + 0.114 * p.b

/-- The 4-connected Laplacian response at flat index `idx`:
`gray[idx-w] + gray[idx-1] + gray[idx+1] + gray[idx+w] - 4*gray[idx]`. -/
def lapAt (gray : List ℚ) (w : ℕ) (idx : ℕ) : ℚ :=
  gray.getD (idx - w) 0 + gray.getD (idx - 1) 0 + gray.getD (idx + 1) 0 +
    gray.getD (idx + w) 0 - 4 * gray.getD idx 0

/-- Accumulated square of the Laplacian over interior pixels, mirroring the
double loop `for (y = 1; y < h-1; ...) for (x = 1; x < w-1; ...)`. -/
def lapVar (gray : List ℚ) (w h : ℕ) : ℚ :=
  ((List.range (h - 2)).map (fun j =>
    ((List.range (w - 2)).map (fun i =>
      (lapAt gray w ((j + 1) * w + (i + 1)))^2)).sum)).sum

/-- Result triple of `getQualityMetrics` with contrast and sharpness kept as
the radicands of the code's final `Math.sqrt`. -/
structure QualityMetricsSq where
  brightness : JsVal
  contrastSq : JsVal
  sharpnessSq : JsVal
deriving DecidableEq, Repr

/-- Embedding of `getQualityMetrics` (`src/lib/quality.ts`): mean luminance,
variance of luminance (radicand of the contrast), and Laplacian energy over
interior pixels divided by the total pixel count (radicand of the
sharpness). -/
def getQualityMetricsSq (img : Raster) : QualityMetricsSq :=
  let count : ℚ := img.data.length
  let gray : List ℚ := img.data.map lum
  let sum : ℚ := gray.sum
  let sumSq : ℚ := (gray.map (fun a => a * a)).sum
  let brightness := jsDiv sum count
  let variance := jsSub (jsDiv sumSq count) (jsMul brightness brightness)
  let contrastSq := jsMax0 variance
  let sharpnessSq := jsDiv (lapVar gray img.width img.height) count
  ⟨brightness, contrastSq, sharpnessSq⟩

end Quality

section Geometry

/-- A 2D landmark point.  The coordinate field is a parameter so that the
purely rational parts of the pipeline (the landmark regularizer) can be run
both over `ℝ` (for general theorems) and over `ℚ` (for decidable concrete
evaluations). -/
structure Point (K : Type) where
  x : K
  y : K
deriving DecidableEq, Repr

/-- Landmark points of the real-valued pipeline. -/
abbrev Pt := Point ℝ

/-- Total read of keypoint `i`; in the TypeScript source every read is in
range whenever the set has at least 468 points, which all theorems assume
where it matters. -/
def kpAt {K : Type} [Zero K] (kp : List (Point K)) (i : ℕ) : Point K :=
  kp.getD i ⟨0, 0⟩

/-- Embedding of `dist`: Euclidean distance. -/
noncomputable def dist (p q : Pt) : ℝ :=
  Real.sqrt ((p.x - q.x)^2 + (p.y - q.y)^2)

/-- JavaScript `Math.atan2 y x` (the argument of the complex number
`x + y*i`, in `(-π, π]`). -/
noncomputable def atan2 (y x : ℝ) : ℝ := Complex.arg ⟨x, y⟩

/-- Embedding of `calculateCanthalTilt` (degrees relative to the horizon). -/
noncomputable def calculateCanthalTilt (inner outer : Pt) : ℝ :=
  atan2 (inner.y - outer.y) (outer.x - inner.x) * 180 / Real.pi

/-- Embedding of `calculateSymmetry`:
`average > 0 ? (1 - difference / average) * 100 : 100`. -/
noncomputable def calculateSymmetry (c l r : Pt) : ℝ :=
  let leftDist := dist c l
  let rightDist := dist c r
  let difference := |leftDist - rightDist|
  let average := (leftDist + rightDist) / 2
  if 0 < average then (1 - difference / average) * 100 else 100

/-- Golden ratio constant of the source (`const PHI = 1.618`). -/
noncomputable def PHI : ℝ := 1.618

/-- Embedding of `calculateGoldenRatioScore`. -/
noncomputable def calculateGoldenRatioScore (r idealPhi : ℝ) : ℝ :=
  clamp (max 0 (1 - |r - idealPhi| / 0.5) * 100) 0 100

end Geometry

section Scoring

/-!
Embedding of the scoring part of `analyzeFace` (the code after the final
anatomy gate).  Each named score of the result record becomes one definition;
the landmark indices and the `norm` bounds are copied from the source.
-/

/-- Quality metric triple consumed by the scoring stage (the values
`getQualityMetrics` would deliver, here arbitrary reals). -/
structure QualityTriple where
  brightness : ℝ
  contrast : ℝ
  sharpness : ℝ

/-- Face width: `dist(landmarks[234], landmarks[454])`. -/
noncomputable def faceWidthOf (kp : List Pt) : ℝ := dist (kpAt kp 234) (kpAt kp 454)

/-- Face height: `dist(landmarks[10], landmarks[152])`. -/
noncomputable def faceHeightOf (kp : List Pt) : ℝ := dist (kpAt kp 10) (kpAt kp 152)

/-- Jaw width: `dist(landmarks[172], landmarks[397])`. -/
noncomputable def jawWidthOf (kp : List Pt) : ℝ := dist (kpAt kp 172) (kpAt kp 397)

/-- Cheek width: `dist(landmarks[123], landmarks[352])`. -/
noncomputable def cheekWidthOf (kp : List Pt) : ℝ := dist (kpAt kp 123) (kpAt kp 352)

/-- Chin length: `dist(landmarks[14], landmarks[152])`. -/
noncomputable def chinLengthOf (kp : List Pt) : ℝ := dist (kpAt kp 14) (kpAt kp 152)

/-- Nose width: `dist(landmarks[102], landmarks[331])`. -/
noncomputable def noseWidthOf (kp : List Pt) : ℝ := dist (kpAt kp 102) (kpAt kp 331)

/-- Mouth width: `dist(landmarks[61], landmarks[291])`. -/
noncomputable def mouthWidthOf (kp : List Pt) : ℝ := dist (kpAt kp 61) (kpAt kp 291)

/-- Jawline score:
`round(0.7 * norm(jaw_width/face_width, 0.60, 0.85) + 0.3 * norm(chin_length/face_height, 0.08, 0.14))`. -/
noncomputable def jawlineScore (kp : List Pt) : ℝ :=
  jsRound (0.7 * norm (jawWidthOf kp / faceWidthOf kp) 0.60 0.85 +
    0.3 * norm (chinLengthOf kp / faceHeightOf kp) 0.08 0.14)

/-- Cheekbones score: `round(norm(cheek_width/jaw_width, 0.95, 1.25))`. -/
noncomputable def cheekbonesScore (kp : List Pt) : ℝ :=
  jsRound (norm (cheekWidthOf kp / jawWidthOf kp) 0.95 1.25)

/-- Skin quality score from the quality triple. -/
noncomputable def skinQualityScore (q : QualityTriple) : ℝ :=
  jsRound (0.5 * norm q.sharpness 50 250 + 0.3 * norm q.contrast 20 70 +
    0.2 * clamp (100 - |norm q.brightness 80 170 - 50| * 2) 0 100)

/-- Eye symmetry sub-score: `calculateSymmetry(nose_center, eye_left_outer, eye_right_outer)`. -/
noncomputable def eyeSymmetryOf (kp : List Pt) : ℝ :=
  calculateSymmetry (kpAt kp 168) (kpAt kp 263) (kpAt kp 33)

/-- Symmetry score: rounded mean of the four symmetry sub-scores (eyes,
cheeks, jaw, lips), all anchored at the nose bridge (index 168). -/
noncomputable def symmetryScore (kp : List Pt) : ℝ :=
  let noseCenter := kpAt kp 168
  let cheekSymmetry := calculateSymmetry noseCenter (kpAt kp 123) (kpAt kp 352)
  let jawSymmetry := calculateSymmetry noseCenter (kpAt kp 172) (kpAt kp 397)
  let lipSymmetry := calculateSymmetry noseCenter (kpAt kp 61) (kpAt kp 291)
  jsRound ((eyeSymmetryOf kp + cheekSymmetry + jawSymmetry + lipSymmetry) / 4)

/-- Mouth/nose golden ratio sub-score:
`calculateGoldenRatioScore(mouth_width / nose_width, PHI)`. -/
noncomputable def noseMouthGoldenOf (kp : List Pt) : ℝ :=
  calculateGoldenRatioScore (mouthWidthOf kp / noseWidthOf kp) PHI

/-- Golden ratio score (`golden_ratio` in the result record): rounded mean of
the face height/width sub-score and the mouth/nose sub-score. -/
noncomputable def goldenScore (kp : List Pt) : ℝ :=
  jsRound ((calculateGoldenRatioScore (faceHeightOf kp / faceWidthOf kp) PHI +
    noseMouthGoldenOf kp) / 2)

/-- Facial thirds score: deviation of the three vertical thirds
(10→9, 9→0, 0→152) from their mean, scaled by 300 and floored at 0. -/
noncomputable def facialThirdsScore (kp : List Pt) : ℝ :=
  let upperThird := dist (kpAt kp 10) (kpAt kp 9)
  let midThird := dist (kpAt kp 9) (kpAt kp 0)
  let lowerThird := dist (kpAt kp 0) (kpAt kp 152)
  let avgThird := (upperThird + midThird + lowerThird) / 3
  let maxDev := max |upperThird - avgThird| (max |midThird - avgThird| |lowerThird - avgThird|)
  jsRound (max 0 (100 - maxDev / avgThird * 300))

/-- Facial fifths score: same construction over the five horizontal
divisions 234→33→133→362→263→454. -/
noncomputable def facialFifthsScore (kp : List Pt) : ℝ :=
  let fifth1 := dist (kpAt kp 234) (kpAt kp 33)
  let fifth2 := dist (kpAt kp 33) (kpAt kp 133)
  let fifth3 := dist (kpAt kp 133) (kpAt kp 362)
  let fifth4 := dist (kpAt kp 362) (kpAt kp 263)
  let fifth5 := dist (kpAt kp 263) (kpAt kp 454)
  let avgFifth := (fifth1 + fifth2 + fifth3 + fifth4 + fifth5) / 5
  let maxFifthDev := max |fifth1 - avgFifth| (max |fifth2 - avgFifth|
    (max |fifth3 - avgFifth| (max |fifth4 - avgFifth| |fifth5 - avgFifth|)))
  jsRound (max 0 (100 - maxFifthDev / avgFifth * 300))

/-- Proportions score: rounded mean of the thirds and fifths scores. -/
noncomputable def proportionsScore (kp : List Pt) : ℝ :=
  jsRound ((facialThirdsScore kp + facialFifthsScore kp) / 2)

/-- Mean canthal tilt over both eyes (degrees); right eye inner 133 / outer
33, left eye inner 362 / outer 263. -/
noncomputable def canthalTiltOf (kp : List Pt) : ℝ :=
  (calculateCanthalTilt (kpAt kp 133) (kpAt kp 33) +
    calculateCanthalTilt (kpAt kp 362) (kpAt kp 263)) / 2

/-- Mean eye aspect (openness): lid distance over corner distance,
averaged over both eyes. -/
noncomputable def eyeAspectOf (kp : List Pt) : ℝ :=
  (dist (kpAt kp 159) (kpAt kp 145) / dist (kpAt kp 133) (kpAt kp 33) +
    dist (kpAt kp 386) (kpAt kp 374) / dist (kpAt kp 362) (kpAt kp 263)) / 2

/-- Eye score:
`round(0.4 * norm(canthal_tilt, -2, 8) + 0.3 * norm(eye_aspect, 0.25, 0.45) + 0.3 * eyeSymmetry)`. -/
noncomputable def eyeScore (kp : List Pt) : ℝ :=
  jsRound (0.4 * norm (canthalTiltOf kp) (-2) 8 +
    0.3 * norm (eyeAspectOf kp) 0.25 0.45 + 0.3 * eyeSymmetryOf kp)

/-- Nose score: `round(0.5 * scoreNoseMouth + 0.5 * facial_thirds)`. -/
noncomputable def noseScore (kp : List Pt) : ℝ :=
  jsRound (0.5 * noseMouthGoldenOf kp + 0.5 * facialThirdsScore kp)

/-- Harmony score:
`round(0.3 * eye_score + 0.3 * nose_score + 0.2 * jawline + 0.2 * cheekbones)`. -/
noncomputable def harmonyScore (kp : List Pt) : ℝ :=
  jsRound (0.3 * eyeScore kp + 0.3 * noseScore kp +
    0.2 * jawlineScore kp + 0.2 * cheekbonesScore kp)

/-- Hunter-eye composite used by masculinity. -/
noncomputable def hunterEyeScoreOf (kp : List Pt) : ℝ :=
  jsRound (0.6 * (100 - norm (eyeAspectOf kp) 0.20 0.40) +
    0.4 * norm (canthalTiltOf kp) 0 10)

/-- Masculinity score:
`round(0.4 * jawline + 0.3 * cheekbones + 0.2 * hunterEyeScore + 0.1 * skin_quality)`. -/
noncomputable def masculinityScore (kp : List Pt) (q : QualityTriple) : ℝ :=
  jsRound (0.4 * jawlineScore kp + 0.3 * cheekbonesScore kp +
    0.2 * hunterEyeScoreOf kp + 0.1 * skinQualityScore q)

/-- Overall score: fixed-weight sum of the category scores divided by 10 and
clamped to `[0, 10]`, then rounded. -/
noncomputable def overallScore (kp : List Pt) (q : QualityTriple) : ℝ :=
  jsRound (clamp ((0.25 * goldenScore kp + 0.20 * symmetryScore kp +
    0.15 * harmonyScore kp + 0.15 * proportionsScore kp +
    0.10 * jawlineScore kp + 0.08 * cheekbonesScore kp +
    0.07 * skinQualityScore q) / 10) 0 10)

/-- Potential score:
`round(clamp(overall + (100 - (skin_quality + cheekbones)/2) * 0.02, overall, 10))`. -/
noncomputable def potentialScore (kp : List Pt) (q : QualityTriple) : ℝ :=
  jsRound (clamp (overallScore kp q +
    (100 - (skinQualityScore q + cheekbonesScore kp) / 2) * 0.02)
    (overallScore kp q) 10)

/-- Score fields of the analysis result (`AnalysisResult` in the source,
restricted to the numeric scores; `golden` is the source's `golden_ratio`
field).  The deep metrics in natural units, the face-shape label and the
warnings are not consumed by any claim and are omitted. -/
structure AnalysisScores where
  overall : ℝ
  potential : ℝ
  symmetry : ℝ
  golden : ℝ
  proportions : ℝ
  harmony : ℝ
  skin_quality : ℝ
  jawline : ℝ
  cheekbones : ℝ
  facial_thirds : ℝ
  facial_fifths : ℝ
  eye_score : ℝ
  nose_score : ℝ
  masculinity : ℝ

/-- Assembly of the score record, mirroring the return object of
`analyzeFace`. -/
noncomputable def analyzeScoresOf (kp : List Pt) (q : QualityTriple) : AnalysisScores :=
  ⟨overallScore kp q, potentialScore kp q, symmetryScore kp, goldenScore kp,
    proportionsScore kp, harmonyScore kp, skinQualityScore q, jawlineScore kp,
    cheekbonesScore kp, facialThirdsScore kp, facialFifthsScore kp,
    eyeScore kp, noseScore kp, masculinityScore kp q⟩

end Scoring

section Validation

/-- Embedding of `validateAnatomy` (lines 258–301 of the analysis module):
the sequential early-return checks of the source become a chain of `if`s. -/
noncomputable def validateAnatomy (kp : List Pt) : Bool :=
  if kp.length < 468 then false
  else
    let eyeLeft := kpAt kp 263
    let eyeRight := kpAt kp 33
    let nose := kpAt kp 1
    let mouth := kpAt kp 13
    let chin := kpAt kp 152
    let forehead := kpAt kp 10
    let faceHeight := dist forehead chin
    let yMargin := faceHeight * 0.05
    if eyeLeft.y ≥ nose.y - yMargin ∨ eyeRight.y ≥ nose.y - yMargin then false
    else if nose.y ≥ mouth.y - yMargin then false
    else if mouth.y ≥ chin.y - yMargin then false
    else if eyeRight.x ≥ nose.x ∨ nose.x ≥ eyeLeft.x then false
    else true

end Validation

section Regularizer

/-!
Embedding of `regularizeLandmarks` (lines 312–417) and its index tables.
The in-place mutations of the source become functional updates
(`modifyPoints`); decimal constants are written as exact fractions.  Out of
range accesses read the origin and updates outside the list are dropped,
matching the guarded accesses of the source (every theorem below assumes at
least 468 points, for which all relevant accesses are in range).
-/

/-- Lid contour indices of the right eye. -/
def RIGHT_EYE_INDICES : List ℕ :=
  [33, 7, 163, 144, 145, 153, 154, 155, 133, 173, 157, 158, 159, 160, 161, 246]

/-- Lid contour indices of the left eye. -/
def LEFT_EYE_INDICES : List ℕ :=
  [263, 249, 390, 373, 374, 380, 381, 382, 362, 398, 384, 385, 386, 387, 388, 466]

/-- Iris indices of the right eye (present when the set has more than 468
points). -/
def RIGHT_IRIS_INDICES : List ℕ := [473, 474, 475, 476, 477]

/-- Iris indices of the left eye. -/
def LEFT_IRIS_INDICES : List ℕ := [468, 469, 470, 471, 472]

variable {K : Type} [LinearOrderedField K]

/-- Apply `f` to the points whose index lies in `s`, leaving all other
points untouched (functional form of the `indices.forEach(idx => ...)`
mutations of the source; the listed indices are pairwise distinct). -/
def modifyFrom (s : List ℕ) (f : Point K → Point K) : ℕ → List (Point K) → List (Point K)
  | _, [] => []
  | n, p :: ps => (if n ∈ s then f p else p) :: modifyFrom s f (n + 1) ps

/-- Update of the points at the indices of `s` by `f`. -/
def modifyPoints (s : List ℕ) (f : Point K → Point K) (kp : List (Point K)) :
    List (Point K) :=
  modifyFrom s f 0 kp

/-- The `y` coordinates of the group members that are in range (the source
scans the group with an `idx < kp.length` guard). -/
def groupYs (indices : List ℕ) (kp : List (Point K)) : List K :=
  (indices.filter (fun i => i < kp.length)).map (fun i => (kpAt kp i).y)

/-- Vertical shift computed by `enforceZone`: move the group down if it pokes
below the zone bottom, else up if it pokes above the zone top, else not at
all.  An empty group (no index in range, `minY = ∞`, `maxY = -∞` in the
source) yields no shift. -/
def zoneShift (zoneTop zoneBottom : K) (ys : List K) : K :=
  match ys with
  | [] => 0
  | y :: rest =>
    let maxY := rest.foldl max y
    let minY := rest.foldl min y
    if zoneBottom < maxY then zoneBottom - maxY
    else if minY < zoneTop then zoneTop - minY
    else 0

/-- Embedding of the `enforceZone` helper. -/
def enforceZone (indices : List ℕ) (zoneTop zoneBottom : K) (kp : List (Point K)) :
    List (Point K) :=
  let s := zoneShift zoneTop zoneBottom (groupYs indices kp)
  if s ≠ 0 then modifyPoints indices (fun p => ⟨p.x, p.y + s⟩) kp else kp

/-- Embedding of the `getMeanY` helper (note: the source reads `kp[idx].y`
without a range guard here; out-of-range members contribute the origin). -/
def meanY (indices : List ℕ) (kp : List (Point K)) : K :=
  ((indices.map (fun i => (kpAt kp i).y)).sum) / (indices.length : K)

/-- Cyclops guard (step 2 of `regularizeLandmarks`): if the inner eye corners
(362 and 133, read from the current point set) are closer than
`faceWidth * 0.12`, push both eye groups apart symmetrically. -/
def cyclopsStep (faceWidth : K) (allRightEye allLeftEye : List ℕ)
    (kp : List (Point K)) : List (Point K) :=
  let minEyeSep := faceWidth * (12/100)
  let currentSep := (kpAt kp 362).x - (kpAt kp 133).x
  if currentSep < minEyeSep then
    let deficit := (minEyeSep - currentSep) / 2
    modifyPoints allLeftEye (fun p => ⟨p.x + deficit, p.y⟩)
      (modifyPoints allRightEye (fun p => ⟨p.x - deficit, p.y⟩) kp)
  else kp

/-- Vertical leveling (step 3): if the two eye groups' mean heights differ by
less than 3% of face height, snap both groups to the shared average. -/
def levelStep (faceHeight : K) (allRightEye allLeftEye : List ℕ)
    (kp : List (Point K)) : List (Point K) :=
  let rightEyeY := meanY allRightEye kp
  let leftEyeY := meanY allLeftEye kp
  if |rightEyeY - leftEyeY| < faceHeight * (3/100) then
    let avgY := (rightEyeY + leftEyeY) / 2
    modifyPoints allLeftEye (fun p => ⟨p.x, p.y + (avgY - leftEyeY)⟩)
      (modifyPoints allRightEye (fun p => ⟨p.x, p.y + (avgY - rightEyeY)⟩) kp)
  else kp

/-- Nose-tip constraints (step 4): clamp the nose tip to the nose zone bottom
when it sits below it, then (reading the possibly updated tip) move it to
`eyeZoneBottom + margin` when it sits above the eye zone bottom. -/
def noseStep (noseZoneBottom eyeZoneBottom margin : K) (kp : List (Point K)) :
    List (Point K) :=
  let kp5 :=
    if noseZoneBottom < (kpAt kp 1).y then
      modifyPoints [1] (fun p => ⟨p.x, noseZoneBottom⟩) kp
    else kp
  if (kpAt kp5 1).y < eyeZoneBottom then
    modifyPoints [1] (fun p => ⟨p.x, eyeZoneBottom + margin⟩) kp5
  else kp5

/-- Mouth-center clamp (step 4 continued). -/
def mouthStep (mouthZoneTop : K) (kp : List (Point K)) : List (Point K) :=
  if (kpAt kp 13).y < mouthZoneTop then
    modifyPoints [13] (fun p => ⟨p.x, mouthZoneTop⟩) kp
  else kp

/-- Chin centering (step 5): if the chin deviates from the mid-cheek x by
more than 10% of face width, pull it halfway towards the center. -/
def chinStep (faceWidth : K) (kp : List (Point K)) : List (Point K) :=
  let midCheekX := ((kpAt kp 234).x + (kpAt kp 454).x) / 2
  if faceWidth * (10/100) < |(kpAt kp 152).x - midCheekX| then
    modifyPoints [152] (fun p => ⟨p.x * (1/2) + midCheekX * (1/2), p.y⟩) kp
  else kp

/-- Embedding of `regularizeLandmarks`: eye-zone projection, cyclops guard,
vertical leveling, nose/mouth clamps and chin centering, in source order.
The face measurements and zones are computed once from the input (none of
the indices they read is ever moved); each step reads the landmark values
left by the previous steps, exactly as the in-place mutations of the source
do. -/
def regularizeLandmarks (kp : List (Point K)) : List (Point K) :=
  let forehead := kpAt kp 10
  let chin := kpAt kp 152
  let leftCheek := kpAt kp 234
  let rightCheek := kpAt kp 454
  let faceHeight := |chin.y - forehead.y|
  let faceWidth := |rightCheek.x - leftCheek.x|
  let faceTop := forehead.y
  let eyeZoneTop := faceTop + faceHeight * (20/100)
  let eyeZoneBottom := faceTop + faceHeight * (55/100)
  let allRightEye :=
    if 468 < kp.length then RIGHT_EYE_INDICES ++ RIGHT_IRIS_INDICES else RIGHT_EYE_INDICES
  let allLeftEye :=
    if 468 < kp.length then LEFT_EYE_INDICES ++ LEFT_IRIS_INDICES else LEFT_EYE_INDICES
  chinStep faceWidth
    (mouthStep (faceTop + faceHeight * (65/100))
      (noseStep (faceTop + faceHeight * (75/100)) eyeZoneBottom (faceHeight * (5/100))
        (levelStep faceHeight allRightEye allLeftEye
          (cyclopsStep faceWidth allRightEye allLeftEye
            (enforceZone allLeftEye eyeZoneTop eyeZoneBottom
              (enforceZone allRightEye eyeZoneTop eyeZoneBottom kp))))))

/-- Conditions under which every constraint of the regularizer is already
met, so that no step moves a point: both eye groups need no zone shift, the
inner eye corners are separated, the eye means are either exactly level or
too far apart for the leveling band, and nose, mouth and chin satisfy their
clamps. -/
def regFixed (kp : List (Point K)) : Prop :=
  let forehead := kpAt kp 10
  let chin := kpAt kp 152
  let leftCheek := kpAt kp 234
  let rightCheek := kpAt kp 454
  let faceHeight := |chin.y - forehead.y|
  let faceWidth := |rightCheek.x - leftCheek.x|
  let faceTop := forehead.y
  let eyeZoneTop := faceTop + faceHeight * (20/100)
  let eyeZoneBottom := faceTop + faceHeight * (55/100)
  let allRightEye :=
    if 468 < kp.length then RIGHT_EYE_INDICES ++ RIGHT_IRIS_INDICES else RIGHT_EYE_INDICES
  let allLeftEye :=
    if 468 < kp.length then LEFT_EYE_INDICES ++ LEFT_IRIS_INDICES else LEFT_EYE_INDICES
  zoneShift eyeZoneTop eyeZoneBottom (groupYs allRightEye kp) = 0 ∧
  zoneShift eyeZoneTop eyeZoneBottom (groupYs allLeftEye kp) = 0 ∧
  ¬((kpAt kp 362).x - (kpAt kp 133).x < faceWidth * (12/100)) ∧
  (meanY allRightEye kp = meanY allLeftEye kp ∨
    ¬(|meanY allRightEye kp - meanY allLeftEye kp| < faceHeight * (3/100))) ∧
  ¬(faceTop + faceHeight * (75/100) < (kpAt kp 1).y) ∧
  ¬((kpAt kp 1).y < eyeZoneBottom) ∧
  ¬((kpAt kp 13).y < faceTop + faceHeight * (65/100)) ∧
  ¬(faceWidth * (10/100) < |(kpAt kp 152).x - ((leftCheek.x + rightCheek.x) / 2)|)

instance (kp : List (Point K)) : Decidable (regFixed kp) := by
  unfold regFixed; infer_instance

/-- All indices the regularizer may move: the two eye groups (lids and
irises), the nose tip, the mouth center and the chin. -/
def touchedIndices : List ℕ :=
  RIGHT_EYE_INDICES ++ (LEFT_EYE_INDICES ++ (RIGHT_IRIS_INDICES ++ (LEFT_IRIS_INDICES ++
    [1, 13, 152])))

end Regularizer

section Alignment

/-!
Embedding of the affine geometry of `cropAndAlignFace` (lines 128–206): the
parameters computed from the landmarks and the forward/inverse maps between
source coordinates and the 512×512 canonical canvas.  The canvas transform
`translate(256,256); scale(s,s); rotate(-angle); translate(-cx,-cy)` sends a
source point `p` to `(256,256) + s·R(-angle)·(p - c)`.
-/

/-- Smallest x coordinate of the landmark bounding box (the source folds with
`minX = Infinity`; an empty landmark list, which yields `±∞` bounds in the
source, is mapped to 0 and is excluded by the non-degeneracy hypothesis of
every theorem). -/
noncomputable def bboxMinX (lm : List Pt) : ℝ :=
  match lm.map Point.x with
  | [] => 0
  | c :: cs => cs.foldl min c

/-- Largest x coordinate of the landmark bounding box. -/
noncomputable def bboxMaxX (lm : List Pt) : ℝ :=
  match lm.map Point.x with
  | [] => 0
  | c :: cs => cs.foldl max c

/-- Smallest y coordinate of the landmark bounding box. -/
noncomputable def bboxMinY (lm : List Pt) : ℝ :=
  match lm.map Point.y with
  | [] => 0
  | c :: cs => cs.foldl min c

/-- Largest y coordinate of the landmark bounding box. -/
noncomputable def bboxMaxY (lm : List Pt) : ℝ :=
  match lm.map Point.y with
  | [] => 0
  | c :: cs => cs.foldl max c

/-- Inter-ocular angle: `atan2` of the vector from landmark 33 to
landmark 263. -/
noncomputable def alignAngleOf (lm : List Pt) : ℝ :=
  atan2 ((kpAt lm 263).y - (kpAt lm 33).y) ((kpAt lm 263).x - (kpAt lm 33).x)

/-- Larger dimension of the landmark bounding box. -/
noncomputable def faceMaxDimOf (lm : List Pt) : ℝ :=
  max (bboxMaxX lm - bboxMinX lm) (bboxMaxY lm - bboxMinY lm)

/-- Safe dimension: the source substitutes 100 for a non-positive bounding
box (`maxDim > 0 ? maxDim : 100`). -/
noncomputable def safeDimOf (lm : List Pt) : ℝ :=
  if 0 < faceMaxDimOf lm then faceMaxDimOf lm else 100

/-- Canvas scale: the larger bounding-box dimension occupies 70% of the
512-pixel canvas. -/
noncomputable def alignScaleOf (lm : List Pt) : ℝ := 512 * 0.7 / safeDimOf lm

/-- The x coordinate of the bounding-box center. -/
noncomputable def alignCenterXOf (lm : List Pt) : ℝ :=
  bboxMinX lm + (bboxMaxX lm - bboxMinX lm) / 2

/-- The y coordinate of the bounding-box center. -/
noncomputable def alignCenterYOf (lm : List Pt) : ℝ :=
  bboxMinY lm + (bboxMaxY lm - bboxMinY lm) / 2

/-- Forward canonical-canvas transform: translate the bounding-box center to
the origin, rotate by the negative inter-ocular angle, scale, translate to
the canvas center. -/
noncomputable def forwardCanvasMap (angle scale cx cy : ℝ) (p : Pt) : Pt :=
  let x0 := p.x - cx
  let y0 := p.y - cy
  let xr := x0 * Real.cos (-angle) - y0 * Real.sin (-angle)
  let yr := x0 * Real.sin (-angle) + y0 * Real.cos (-angle)
  ⟨512 / 2 + scale * xr, 512 / 2 + scale * yr⟩

/-- Embedding of `mapPointBack`: undo the canvas-center translation, undo the
scale, rotate by `+angle`, undo the center translation. -/
noncomputable def mapPointBack (angle scale cx cy : ℝ) (p : Pt) : Pt :=
  let x1 := p.x - 512 / 2
  let y1 := p.y - 512 / 2
  let x2 := x1 / scale
  let y2 := y1 / scale
  let x3 := x2 * Real.cos angle - y2 * Real.sin angle
  let y3 := x2 * Real.sin angle + y2 * Real.cos angle
  ⟨x3 + cx, y3 + cy⟩

end Alignment

section Pipeline

/-- Error taxonomy of the analysis pipeline (§7 of the specification;
the implementation throws only the latter two). -/
inductive AnalysisError where
  | NO_FACE_DETECTED
  | INVALID_FACE_ANGLE
  | FACE_ALIGNMENT_ERROR
deriving DecidableEq, Repr

/-- The retry/failure condition of both detection gates:
`faces.length === 0 || !validateAnatomy(faces[0].keypoints)` (the disjunction
short-circuits, so an empty list never reaches the validator). -/
noncomputable def detectionBad (faces : List (List Pt)) : Bool :=
  match faces with
  | [] => true
  | f :: _ => !validateAnatomy f

/-- Control flow of `analyzeFace` up to the finalized keypoints (lines
465–523): direct pass, rotated retry, `INVALID_FACE_ANGLE` gate, aligned
re-detection with `mapPointBack` and fallback, regularization, final gate.
The detector and the two raster constructions (rotation by −5° and the
canonical canvas) are external capabilities passed as functions; image
loading and score computation are out of scope of this definition. -/
noncomputable def analyzeFacePipeline {Img : Type} (det : Img → List (List Pt))
    (rotateNeg5 : Img → Img) (alignedCanvasOf : Img → List Pt → Img) (img : Img) :
    Except AnalysisError (List Pt) :=
  let faces0 := det img
  let faces := if detectionBad faces0 then det (rotateNeg5 img) else faces0
  if detectionBad faces then Except.error AnalysisError.INVALID_FACE_ANGLE
  else
    let initialLandmarks := faces.headD []
    let refinedFaces := det (alignedCanvasOf img initialLandmarks)
    let keypoints :=
      match refinedFaces with
      | [] => initialLandmarks
      | rf :: _ =>
        let mapped := rf.map (mapPointBack (alignAngleOf initialLandmarks)
          (alignScaleOf initialLandmarks) (alignCenterXOf initialLandmarks)
          (alignCenterYOf initialLandmarks))
        if validateAnatomy mapped then mapped else initialLandmarks
    let finalKeypoints := regularizeLandmarks keypoints
    if validateAnatomy finalKeypoints then Except.ok finalKeypoints
    else Except.error AnalysisError.FACE_ALIGNMENT_ERROR

end Pipeline

section BasicLemmas

lemma le_jsRound {x : ℝ} {n : ℤ} (h : (n : ℝ) ≤ x) : (n : ℝ) ≤ jsRound x := by
  unfold jsRound jsRoundZ
  have hn : n ≤ ⌊x + 1/2⌋ := Int.le_floor.mpr (by linarith)
  exact_mod_cast hn

lemma jsRound_le {x : ℝ} {n : ℤ} (h : x ≤ (n : ℝ)) : jsRound x ≤ (n : ℝ) := by
  unfold jsRound jsRoundZ
  have hlt : ⌊x + 1/2⌋ < n + 1 :=
    Int.floor_lt.mpr (by exact_mod_cast (show x + 1/2 < (n : ℝ) + 1 by linarith))
  have hn : ⌊x + 1/2⌋ ≤ n := by omega
  exact_mod_cast hn

lemma jsRound_eq {x : ℝ} (n : ℤ) (h1 : (n : ℝ) ≤ x + 1/2) (h2 : x + 1/2 < (n : ℝ) + 1) :
    jsRound x = (n : ℝ) := by
  unfold jsRound jsRoundZ
  have hn : ⌊x + 1/2⌋ = n := by
    rw [Int.floor_eq_iff]
    exact ⟨h1, by exact_mod_cast h2⟩
  exact_mod_cast hn

lemma le_clamp (x a b : ℝ) : a ≤ clamp x a b := le_max_left _ _

lemma clamp_le {a b : ℝ} (x : ℝ) (h : a ≤ b) : clamp x a b ≤ b :=
  max_le h (min_le_right _ _)

lemma norm_nonneg' (x lo hi : ℝ) : 0 ≤ norm x lo hi := le_clamp _ _ _

lemma norm_le_100 (x lo hi : ℝ) : norm x lo hi ≤ 100 := clamp_le _ (by norm_num)

lemma dist_nonneg' (p q : Pt) : 0 ≤ dist p q := Real.sqrt_nonneg _

lemma dist_vert (a b c : ℝ) : dist ⟨a, b⟩ ⟨a, c⟩ = |b - c| := by
  unfold dist
  rw [show (a - a)^2 + (b - c)^2 = (b - c)^2 by ring, Real.sqrt_sq_eq_abs]

lemma dist_horiz (a b c : ℝ) : dist ⟨a, c⟩ ⟨b, c⟩ = |a - b| := by
  unfold dist
  rw [show (a - b)^2 + (c - c)^2 = (a - b)^2 by ring, Real.sqrt_sq_eq_abs]

lemma dist_self (p : Pt) : dist p p = 0 := by
  unfold dist
  simp

lemma calculateSymmetry_le_100 (c l r : Pt) : calculateSymmetry c l r ≤ 100 := by
  simp only [calculateSymmetry]
  split_ifs with h
  · have hd : 0 ≤ |dist c l - dist c r| / ((dist c l + dist c r) / 2) :=
      div_nonneg (abs_nonneg _) (le_of_lt h)
    linarith
  · exact le_refl 100

lemma neg_100_le_calculateSymmetry (c l r : Pt) : -100 ≤ calculateSymmetry c l r := by
  simp only [calculateSymmetry]
  split_ifs with h
  · have hL : 0 ≤ dist c l := dist_nonneg' _ _
    have hR : 0 ≤ dist c r := dist_nonneg' _ _
    have habs : |dist c l - dist c r| ≤ dist c l + dist c r := by
      rw [abs_sub_le_iff]; constructor <;> linarith
    have hd : |dist c l - dist c r| / ((dist c l + dist c r) / 2) ≤ 2 := by
      rw [div_le_iff₀ h]; linarith
    linarith
  · norm_num

lemma calculateGoldenRatioScore_nonneg (r i : ℝ) : 0 ≤ calculateGoldenRatioScore r i :=
  le_clamp _ _ _

lemma calculateGoldenRatioScore_le_100 (r i : ℝ) : calculateGoldenRatioScore r i ≤ 100 :=
  clamp_le _ (by norm_num)

end BasicLemmas

section ValidationLemmas

/-- Plausibility conditions as worded by the specification (§4.3): a
complete set, each of the three vertical orderings holding by strictly more
than the margin of 5% of the forehead-to-chin distance, and the strict
horizontal ordering right-eye-outer < nose < left-eye-outer. -/
def specPlausible (kp : List Pt) : Prop :=
  468 ≤ kp.length ∧
  dist (kpAt kp 10) (kpAt kp 152) * 0.05 < (kpAt kp 1).y - (kpAt kp 263).y ∧
  dist (kpAt kp 10) (kpAt kp 152) * 0.05 < (kpAt kp 1).y - (kpAt kp 33).y ∧
  dist (kpAt kp 10) (kpAt kp 152) * 0.05 < (kpAt kp 13).y - (kpAt kp 1).y ∧
  dist (kpAt kp 10) (kpAt kp 152) * 0.05 < (kpAt kp 152).y - (kpAt kp 13).y ∧
  (kpAt kp 33).x < (kpAt kp 1).x ∧ (kpAt kp 1).x < (kpAt kp 263).x

lemma validateAnatomy_eq_true_iff (kp : List Pt) :
    validateAnatomy kp = true ↔ specPlausible kp := by
  simp only [validateAnatomy, specPlausible]
  split_ifs with h1 h2 h3 h4 h5 <;>
    simp only [Bool.false_eq_true, false_iff, true_iff]
  · intro h
    exact absurd h.1 (by omega)
  · intro h
    obtain ⟨hlen, ha, hb, hc, hd, he, hf⟩ := h
    rcases h2 with h2 | h2 <;> linarith
  · intro h
    obtain ⟨hlen, ha, hb, hc, hd, he, hf⟩ := h
    linarith
  · intro h
    obtain ⟨hlen, ha, hb, hc, hd, he, hf⟩ := h
    linarith
  · intro h
    obtain ⟨hlen, ha, hb, hc, hd, he, hf⟩ := h
    rcases h5 with h5 | h5 <;> linarith
  · push_neg at h1 h2 h3 h4 h5
    exact ⟨by omega, by linarith [h2.1], by linarith [h2.2], by linarith, by linarith,
      h5.1, h5.2⟩

end ValidationLemmas

section ScoreBounds

lemma jsRound_mem_int (m n : ℤ) {x : ℝ} (h0 : (m : ℝ) ≤ x) (h1 : x ≤ (n : ℝ)) :
    (m : ℝ) ≤ jsRound x ∧ jsRound x ≤ (n : ℝ) :=
  ⟨le_jsRound h0, jsRound_le h1⟩

lemma jsRound_mem_0_100 {x : ℝ} (h0 : 0 ≤ x) (h1 : x ≤ 100) :
    0 ≤ jsRound x ∧ jsRound x ≤ 100 := by
  have l := @le_jsRound x 0 (by exact_mod_cast h0)
  have r := @jsRound_le x 100 (by exact_mod_cast h1)
  norm_num at l r
  exact ⟨l, r⟩

lemma jsRound_mono {x y : ℝ} (h : x ≤ y) : jsRound x ≤ jsRound y := by
  unfold jsRound jsRoundZ
  exact_mod_cast Int.floor_mono (by linarith)

lemma jsRound_intCast (n : ℤ) : jsRound ((n : ℝ)) = (n : ℝ) :=
  jsRound_eq n (by linarith) (by linarith)

lemma jawlineScore_mem (kp : List Pt) : 0 ≤ jawlineScore kp ∧ jawlineScore kp ≤ 100 := by
  unfold jawlineScore
  apply jsRound_mem_0_100
  · have h1 := norm_nonneg' (jawWidthOf kp / faceWidthOf kp) 0.60 0.85
    have h2 := norm_nonneg' (chinLengthOf kp / faceHeightOf kp) 0.08 0.14
    linarith
  · have h1 := norm_le_100 (jawWidthOf kp / faceWidthOf kp) 0.60 0.85
    have h2 := norm_le_100 (chinLengthOf kp / faceHeightOf kp) 0.08 0.14
    linarith

lemma cheekbonesScore_mem (kp : List Pt) : 0 ≤ cheekbonesScore kp ∧ cheekbonesScore kp ≤ 100 := by
  unfold cheekbonesScore
  exact jsRound_mem_0_100 (norm_nonneg' _ _ _) (norm_le_100 _ _ _)

lemma skinQualityScore_mem (q : QualityTriple) :
    0 ≤ skinQualityScore q ∧ skinQualityScore q ≤ 100 := by
  unfold skinQualityScore
  apply jsRound_mem_0_100
  · have h1 := norm_nonneg' q.sharpness 50 250
    have h2 := norm_nonneg' q.contrast 20 70
    have h3 := le_clamp (100 - |norm q.brightness 80 170 - 50| * 2) 0 100
    linarith
  · have h1 := norm_le_100 q.sharpness 50 250
    have h2 := norm_le_100 q.contrast 20 70
    have h3 : clamp (100 - |norm q.brightness 80 170 - 50| * 2) 0 100 ≤ 100 :=
      clamp_le _ (by norm_num)
    linarith

lemma eyeSymmetryOf_mem (kp : List Pt) :
    -100 ≤ eyeSymmetryOf kp ∧ eyeSymmetryOf kp ≤ 100 :=
  ⟨neg_100_le_calculateSymmetry _ _ _, calculateSymmetry_le_100 _ _ _⟩

lemma symmetryScore_mem (kp : List Pt) :
    -100 ≤ symmetryScore kp ∧ symmetryScore kp ≤ 100 := by
  simp only [symmetryScore]
  have h1 := eyeSymmetryOf_mem kp
  have h2l := neg_100_le_calculateSymmetry (kpAt kp 168) (kpAt kp 123) (kpAt kp 352)
  have h2r := calculateSymmetry_le_100 (kpAt kp 168) (kpAt kp 123) (kpAt kp 352)
  have h3l := neg_100_le_calculateSymmetry (kpAt kp 168) (kpAt kp 172) (kpAt kp 397)
  have h3r := calculateSymmetry_le_100 (kpAt kp 168) (kpAt kp 172) (kpAt kp 397)
  have h4l := neg_100_le_calculateSymmetry (kpAt kp 168) (kpAt kp 61) (kpAt kp 291)
  have h4r := calculateSymmetry_le_100 (kpAt kp 168) (kpAt kp 61) (kpAt kp 291)
  have hm := jsRound_mem_int (-100) 100
    (x := (eyeSymmetryOf kp + calculateSymmetry (kpAt kp 168) (kpAt kp 123) (kpAt kp 352) +
      calculateSymmetry (kpAt kp 168) (kpAt kp 172) (kpAt kp 397) +
      calculateSymmetry (kpAt kp 168) (kpAt kp 61) (kpAt kp 291)) / 4)
    (by push_cast; linarith [h1.1]) (by push_cast; linarith [h1.2])
  constructor
  · have := hm.1
    push_cast at this
    linarith
  · have := hm.2
    push_cast at this
    linarith

lemma goldenScore_mem (kp : List Pt) : 0 ≤ goldenScore kp ∧ goldenScore kp ≤ 100 := by
  unfold goldenScore noseMouthGoldenOf
  apply jsRound_mem_0_100
  · have h1 := calculateGoldenRatioScore_nonneg (faceHeightOf kp / faceWidthOf kp) PHI
    have h2 := calculateGoldenRatioScore_nonneg (mouthWidthOf kp / noseWidthOf kp) PHI
    linarith
  · have h1 := calculateGoldenRatioScore_le_100 (faceHeightOf kp / faceWidthOf kp) PHI
    have h2 := calculateGoldenRatioScore_le_100 (mouthWidthOf kp / noseWidthOf kp) PHI
    linarith

lemma facialThirdsScore_mem (kp : List Pt) :
    0 ≤ facialThirdsScore kp ∧ facialThirdsScore kp ≤ 100 := by
  simp only [facialThirdsScore]
  apply jsRound_mem_0_100
  · exact le_max_left _ _
  · apply max_le (by norm_num)
    have d1 := dist_nonneg' (kpAt kp 10) (kpAt kp 9)
    have d2 := dist_nonneg' (kpAt kp 9) (kpAt kp 0)
    have d3 := dist_nonneg' (kpAt kp 0) (kpAt kp 152)
    have hd : (0:ℝ) ≤ max |dist (kpAt kp 10) (kpAt kp 9) -
        (dist (kpAt kp 10) (kpAt kp 9) + dist (kpAt kp 9) (kpAt kp 0) +
          dist (kpAt kp 0) (kpAt kp 152)) / 3|
        (max |dist (kpAt kp 9) (kpAt kp 0) -
            (dist (kpAt kp 10) (kpAt kp 9) + dist (kpAt kp 9) (kpAt kp 0) +
              dist (kpAt kp 0) (kpAt kp 152)) / 3|
          |dist (kpAt kp 0) (kpAt kp 152) -
            (dist (kpAt kp 10) (kpAt kp 9) + dist (kpAt kp 9) (kpAt kp 0) +
              dist (kpAt kp 0) (kpAt kp 152)) / 3|) :=
      le_trans (abs_nonneg _) (le_max_left _ _)
    have ha : (0:ℝ) ≤ (dist (kpAt kp 10) (kpAt kp 9) + dist (kpAt kp 9) (kpAt kp 0) +
        dist (kpAt kp 0) (kpAt kp 152)) / 3 := by linarith
    have := mul_nonneg (div_nonneg hd ha) (by norm_num : (0:ℝ) ≤ 300)
    linarith

lemma facialFifthsScore_mem (kp : List Pt) :
    0 ≤ facialFifthsScore kp ∧ facialFifthsScore kp ≤ 100 := by
  simp only [facialFifthsScore]
  apply jsRound_mem_0_100
  · exact le_max_left _ _
  · apply max_le (by norm_num)
    have d1 := dist_nonneg' (kpAt kp 234) (kpAt kp 33)
    have d2 := dist_nonneg' (kpAt kp 33) (kpAt kp 133)
    have d3 := dist_nonneg' (kpAt kp 133) (kpAt kp 362)
    have d4 := dist_nonneg' (kpAt kp 362) (kpAt kp 263)
    have d5 := dist_nonneg' (kpAt kp 263) (kpAt kp 454)
    set A := (dist (kpAt kp 234) (kpAt kp 33) + dist (kpAt kp 33) (kpAt kp 133) +
      dist (kpAt kp 133) (kpAt kp 362) + dist (kpAt kp 362) (kpAt kp 263) +
      dist (kpAt kp 263) (kpAt kp 454)) / 5 with hA
    have hd : (0:ℝ) ≤ max |dist (kpAt kp 234) (kpAt kp 33) - A|
        (max |dist (kpAt kp 33) (kpAt kp 133) - A|
          (max |dist (kpAt kp 133) (kpAt kp 362) - A|
            (max |dist (kpAt kp 362) (kpAt kp 263) - A|
              |dist (kpAt kp 263) (kpAt kp 454) - A|))) :=
      le_trans (abs_nonneg _) (le_max_left _ _)
    have ha : (0:ℝ) ≤ A := by rw [hA]; linarith
    have := mul_nonneg (div_nonneg hd ha) (by norm_num : (0:ℝ) ≤ 300)
    linarith

lemma proportionsScore_mem (kp : List Pt) :
    0 ≤ proportionsScore kp ∧ proportionsScore kp ≤ 100 := by
  unfold proportionsScore
  have h1 := facialThirdsScore_mem kp
  have h2 := facialFifthsScore_mem kp
  exact jsRound_mem_0_100 (by linarith [h1.1, h2.1]) (by linarith [h1.2, h2.2])

lemma eyeScore_mem (kp : List Pt) : -30 ≤ eyeScore kp ∧ eyeScore kp ≤ 100 := by
  unfold eyeScore
  have h1l := norm_nonneg' (canthalTiltOf kp) (-2) 8
  have h1r := norm_le_100 (canthalTiltOf kp) (-2) 8
  have h2l := norm_nonneg' (eyeAspectOf kp) 0.25 0.45
  have h2r := norm_le_100 (eyeAspectOf kp) 0.25 0.45
  have h3 := eyeSymmetryOf_mem kp
  have hm := jsRound_mem_int (-30) 100
    (x := 0.4 * norm (canthalTiltOf kp) (-2) 8 + 0.3 * norm (eyeAspectOf kp) 0.25 0.45 +
      0.3 * eyeSymmetryOf kp)
    (by push_cast; linarith [h3.1]) (by push_cast; linarith [h3.2])
  constructor
  · have := hm.1
    push_cast at this
    linarith
  · have := hm.2
    push_cast at this
    linarith

lemma noseScore_mem (kp : List Pt) : 0 ≤ noseScore kp ∧ noseScore kp ≤ 100 := by
  unfold noseScore noseMouthGoldenOf
  have h1l := calculateGoldenRatioScore_nonneg (mouthWidthOf kp / noseWidthOf kp) PHI
  have h1r := calculateGoldenRatioScore_le_100 (mouthWidthOf kp / noseWidthOf kp) PHI
  have h2 := facialThirdsScore_mem kp
  exact jsRound_mem_0_100 (by linarith [h2.1]) (by linarith [h2.2])

lemma harmonyScore_mem (kp : List Pt) : -9 ≤ harmonyScore kp ∧ harmonyScore kp ≤ 100 := by
  unfold harmonyScore
  have h1 := eyeScore_mem kp
  have h2 := noseScore_mem kp
  have h3 := jawlineScore_mem kp
  have h4 := cheekbonesScore_mem kp
  have hm := jsRound_mem_int (-9) 100
    (x := 0.3 * eyeScore kp + 0.3 * noseScore kp + 0.2 * jawlineScore kp +
      0.2 * cheekbonesScore kp)
    (by push_cast; linarith [h1.1, h2.1, h3.1, h4.1])
    (by push_cast; linarith [h1.2, h2.2, h3.2, h4.2])
  constructor
  · have := hm.1
    push_cast at this
    linarith
  · have := hm.2
    push_cast at this
    linarith

lemma hunterEyeScoreOf_mem (kp : List Pt) :
    0 ≤ hunterEyeScoreOf kp ∧ hunterEyeScoreOf kp ≤ 100 := by
  unfold hunterEyeScoreOf
  have h1l := norm_nonneg' (eyeAspectOf kp) 0.20 0.40
  have h1r := norm_le_100 (eyeAspectOf kp) 0.20 0.40
  have h2l := norm_nonneg' (canthalTiltOf kp) 0 10
  have h2r := norm_le_100 (canthalTiltOf kp) 0 10
  exact jsRound_mem_0_100 (by linarith) (by linarith)

lemma masculinityScore_mem (kp : List Pt) (q : QualityTriple) :
    0 ≤ masculinityScore kp q ∧ masculinityScore kp q ≤ 100 := by
  unfold masculinityScore
  have h1 := jawlineScore_mem kp
  have h2 := cheekbonesScore_mem kp
  have h3 := hunterEyeScoreOf_mem kp
  have h4 := skinQualityScore_mem q
  exact jsRound_mem_0_100 (by linarith [h1.1, h2.1, h3.1, h4.1])
    (by linarith [h1.2, h2.2, h3.2, h4.2])

lemma overallScore_mem (kp : List Pt) (q : QualityTriple) :
    0 ≤ overallScore kp q ∧ overallScore kp q ≤ 10 := by
  unfold overallScore
  have l := le_clamp ((0.25 * goldenScore kp + 0.20 * symmetryScore kp +
    0.15 * harmonyScore kp + 0.15 * proportionsScore kp + 0.10 * jawlineScore kp +
    0.08 * cheekbonesScore kp + 0.07 * skinQualityScore q) / 10) 0 10
  have r := clamp_le ((0.25 * goldenScore kp + 0.20 * symmetryScore kp +
    0.15 * harmonyScore kp + 0.15 * proportionsScore kp + 0.10 * jawlineScore kp +
    0.08 * cheekbonesScore kp + 0.07 * skinQualityScore q) / 10)
    (by norm_num : (0:ℝ) ≤ 10)
  have hm := jsRound_mem_int 0 10 (x := clamp ((0.25 * goldenScore kp +
    0.20 * symmetryScore kp + 0.15 * harmonyScore kp + 0.15 * proportionsScore kp +
    0.10 * jawlineScore kp + 0.08 * cheekbonesScore kp + 0.07 * skinQualityScore q) / 10) 0 10)
    (by push_cast; linarith) (by push_cast; linarith)
  constructor
  · have := hm.1
    push_cast at this
    linarith
  · have := hm.2
    push_cast at this
    linarith

lemma potentialScore_bounds (kp : List Pt) (q : QualityTriple) :
    overallScore kp q ≤ potentialScore kp q ∧ potentialScore kp q ≤ 10 := by
  have hov := overallScore_mem kp q
  obtain ⟨k, hk⟩ : ∃ k : ℤ, overallScore kp q = (k : ℝ) := ⟨_, rfl⟩
  unfold potentialScore
  constructor
  · have h1 : overallScore kp q ≤ clamp (overallScore kp q +
        (100 - (skinQualityScore q + cheekbonesScore kp) / 2) * 0.02)
        (overallScore kp q) 10 := le_clamp _ _ _
    calc overallScore kp q = jsRound (overallScore kp q) := by rw [hk, jsRound_intCast]
      _ ≤ _ := jsRound_mono h1
  · have h2 : clamp (overallScore kp q +
        (100 - (skinQualityScore q + cheekbonesScore kp) / 2) * 0.02)
        (overallScore kp q) 10 ≤ 10 := clamp_le _ hov.2
    have := @jsRound_le (clamp (overallScore kp q +
      (100 - (skinQualityScore q + cheekbonesScore kp) / 2) * 0.02)
      (overallScore kp q) 10) 10 (by push_cast; linarith)
    push_cast at this
    linarith

end ScoreBounds

section ClaimC5

/-- C5: `validateAnatomy` returns plausible if and only if the keypoint set
has at least 468 points, each of the three vertical orderings (eyes above
nose, nose above mouth, mouth above chin) holds by strictly more than the
margin of 0.05 times the forehead-to-chin distance, and the horizontal
ordering right-eye-outer x < nose x < left-eye-outer x holds strictly. -/
theorem claim_C5_validateAnatomy_characterization (kp : List Pt) :
    validateAnatomy kp = true ↔ specPlausible kp :=
  validateAnatomy_eq_true_iff kp

end ClaimC5

section ClaimC9

/-- C9: the potential score equals the overall score plus the improvability
term `(100 - (skin_quality + cheekbones)/2) * 0.02`, clamped to
`[overall, 10]` (and rounded); in particular the potential is always at
least the overall score and at most 10. -/
theorem claim_C9_potential_formula (kp : List Pt) (q : QualityTriple) :
    (analyzeScoresOf kp q).potential =
      jsRound (clamp ((analyzeScoresOf kp q).overall +
        (100 - ((analyzeScoresOf kp q).skin_quality + (analyzeScoresOf kp q).cheekbones) / 2)
          * 0.02) ((analyzeScoresOf kp q).overall) 10) ∧
    (analyzeScoresOf kp q).overall ≤ (analyzeScoresOf kp q).potential ∧
    (analyzeScoresOf kp q).potential ≤ 10 :=
  ⟨rfl, (potentialScore_bounds kp q).1, (potentialScore_bounds kp q).2⟩

end ClaimC9

section ClaimC1

/-- C1 (amended): for every keypoint set passing anatomical validation and
every quality-metric triple, the sub-scores jawline, cheekbones,
skin_quality, golden_ratio, facial_thirds, facial_fifths, proportions,
nose_score and masculinity lie in `[0, 100]`, and overall and potential lie
in `[0, 10]` with potential at least overall; the symmetry, eye_score and
harmony sub-scores however are only bounded below by −100, −30 and −9
respectively (they can be negative, see the counterexample), while still
never exceeding 100. -/
theorem claim_C1_score_ranges_amended (kp : List Pt) (q : QualityTriple)
    (_hvalid : validateAnatomy kp = true) :
    (0 ≤ (analyzeScoresOf kp q).jawline ∧ (analyzeScoresOf kp q).jawline ≤ 100) ∧
    (0 ≤ (analyzeScoresOf kp q).cheekbones ∧ (analyzeScoresOf kp q).cheekbones ≤ 100) ∧
    (0 ≤ (analyzeScoresOf kp q).skin_quality ∧ (analyzeScoresOf kp q).skin_quality ≤ 100) ∧
    (0 ≤ (analyzeScoresOf kp q).golden ∧ (analyzeScoresOf kp q).golden ≤ 100) ∧
    (0 ≤ (analyzeScoresOf kp q).facial_thirds ∧ (analyzeScoresOf kp q).facial_thirds ≤ 100) ∧
    (0 ≤ (analyzeScoresOf kp q).facial_fifths ∧ (analyzeScoresOf kp q).facial_fifths ≤ 100) ∧
    (0 ≤ (analyzeScoresOf kp q).proportions ∧ (analyzeScoresOf kp q).proportions ≤ 100) ∧
    (0 ≤ (analyzeScoresOf kp q).nose_score ∧ (analyzeScoresOf kp q).nose_score ≤ 100) ∧
    (0 ≤ (analyzeScoresOf kp q).masculinity ∧ (analyzeScoresOf kp q).masculinity ≤ 100) ∧
    (-100 ≤ (analyzeScoresOf kp q).symmetry ∧ (analyzeScoresOf kp q).symmetry ≤ 100) ∧
    (-30 ≤ (analyzeScoresOf kp q).eye_score ∧ (analyzeScoresOf kp q).eye_score ≤ 100) ∧
    (-9 ≤ (analyzeScoresOf kp q).harmony ∧ (analyzeScoresOf kp q).harmony ≤ 100) ∧
    (0 ≤ (analyzeScoresOf kp q).overall ∧ (analyzeScoresOf kp q).overall ≤ 10) ∧
    ((analyzeScoresOf kp q).overall ≤ (analyzeScoresOf kp q).potential ∧
      (analyzeScoresOf kp q).potential ≤ 10) :=
  ⟨jawlineScore_mem kp, cheekbonesScore_mem kp, skinQualityScore_mem q, goldenScore_mem kp,
    facialThirdsScore_mem kp, facialFifthsScore_mem kp, proportionsScore_mem kp,
    noseScore_mem kp, masculinityScore_mem kp q, symmetryScore_mem kp, eyeScore_mem kp,
    harmonyScore_mem kp, overallScore_mem kp q, potentialScore_bounds kp q⟩

end ClaimC1

section ConcreteEval

lemma kpAt_range_map {K : Type} [Zero K] (f : ℕ → Point K) {n i : ℕ} (h : i < n) :
    kpAt ((List.range n).map f) i = f i := by
  unfold kpAt
  rw [List.getD_eq_getElem?_getD, List.getElem?_map, List.getElem?_range h]
  rfl

lemma dist_eval_y1 {a b c : ℝ} (d : ℝ) (h : c - b = d) (hd : 0 ≤ d) :
    dist ⟨a, b⟩ ⟨a, c⟩ = d := by
  rw [dist_vert, abs_sub_comm, h, abs_of_nonneg hd]

lemma dist_eval_y2 {a b c : ℝ} (d : ℝ) (h : b - c = d) (hd : 0 ≤ d) :
    dist ⟨a, b⟩ ⟨a, c⟩ = d := by
  rw [dist_vert, h, abs_of_nonneg hd]

lemma dist_eval_x1 {a b c : ℝ} (d : ℝ) (h : a - b = d) (hd : 0 ≤ d) :
    dist ⟨a, c⟩ ⟨b, c⟩ = d := by
  rw [dist_horiz, h, abs_of_nonneg hd]

lemma dist_eval_x2 {a b c : ℝ} (d : ℝ) (h : b - a = d) (hd : 0 ≤ d) :
    dist ⟨a, c⟩ ⟨b, c⟩ = d := by
  rw [dist_horiz, abs_sub_comm, h, abs_of_nonneg hd]

lemma norm_eval_lo {x lo hi : ℝ} (h : (x - lo) / (hi - lo) * 100 ≤ 0) :
    norm x lo hi = 0 := by
  unfold norm clamp
  rw [min_eq_left (le_trans h (by norm_num)), max_eq_left h]

lemma norm_eval_mid {x lo hi : ℝ} (v : ℝ) (hv : (x - lo) / (hi - lo) * 100 = v)
    (h0 : 0 ≤ v) (h1 : v ≤ 100) : norm x lo hi = v := by
  unfold norm clamp
  rw [hv, min_eq_left h1, max_eq_right h0]

lemma calculateSymmetry_left_zero {c l r : Pt} (dr : ℝ) (hl : dist c l = 0)
    (hr : dist c r = dr) (h : 0 < dr) : calculateSymmetry c l r = -100 := by
  simp only [calculateSymmetry, hl, hr]
  rw [if_pos (by linarith)]
  rw [show |(0:ℝ) - dr| = dr from by rw [abs_sub_comm, sub_zero, abs_of_nonneg (le_of_lt h)]]
  have hdr : dr / ((0 + dr) / 2) = 2 := by
    rw [zero_add]
    field_simp
  rw [hdr]
  norm_num

lemma grScore_eval_zero {r i : ℝ} (h : 1 - |r - i| / 0.5 ≤ 0) :
    calculateGoldenRatioScore r i = 0 := by
  unfold calculateGoldenRatioScore clamp
  rw [max_eq_left h, zero_mul, min_eq_left (by norm_num), max_eq_left le_rfl]

end ConcreteEval

section ClaimC1Counterexample

/-- Landmark layout of a keypoint set that passes `validateAnatomy` (the
validator only constrains indices 1, 10, 13, 33, 152, 263) while the nose
bridge anchor 168 coincides with the landmarks 263, 123, 172 and 61, which
drives all four symmetry sub-scores to −100. -/
noncomputable def exC1F : ℕ → Pt := fun i =>
  if i = 0 then ⟨0, 4⟩
  else if i = 1 then ⟨0, 40⟩
  else if i = 9 then ⟨0, 2⟩
  else if i = 10 then ⟨0, 0⟩
  else if i = 13 then ⟨0, 60⟩
  else if i = 14 then ⟨0, 99⟩
  else if i = 33 then ⟨-10, 20⟩
  else if i = 61 then ⟨10, 20⟩
  else if i = 102 then ⟨0, 44⟩
  else if i = 123 then ⟨10, 20⟩
  else if i = 133 then ⟨-10, 19⟩
  else if i = 145 then ⟨-10, 21⟩
  else if i = 152 then ⟨0, 100⟩
  else if i = 159 then ⟨-10, 21⟩
  else if i = 168 then ⟨10, 20⟩
  else if i = 172 then ⟨10, 20⟩
  else if i = 234 then ⟨-50, 50⟩
  else if i = 263 then ⟨10, 20⟩
  else if i = 291 then ⟨10, -5⟩
  else if i = 331 then ⟨0, 49⟩
  else if i = 352 then ⟨10, 50⟩
  else if i = 362 then ⟨10, 19⟩
  else if i = 374 then ⟨10, 21⟩
  else if i = 386 then ⟨10, 21⟩
  else if i = 397 then ⟨40, 20⟩
  else if i = 454 then ⟨50, 50⟩
  else ⟨0, 50⟩

/-- The 468-point counterexample keypoint set for C1. -/
noncomputable def exC1Kp : List Pt := (List.range 468).map exC1F

/-- An uneventful quality triple (brightness, contrast, sharpness). -/
noncomputable def exC1Q : QualityTriple := ⟨125, 45, 200⟩

lemma exC1Kp_at (i : ℕ) (h : i < 468) : kpAt exC1Kp i = exC1F i :=
  kpAt_range_map exC1F h

lemma exC1Kp_valid : validateAnatomy exC1Kp = true := by
  rw [validateAnatomy_eq_true_iff]
  unfold specPlausible
  rw [exC1Kp_at 10 (by norm_num), exC1Kp_at 152 (by norm_num), exC1Kp_at 1 (by norm_num),
    exC1Kp_at 263 (by norm_num), exC1Kp_at 33 (by norm_num), exC1Kp_at 13 (by norm_num)]
  rw [show dist (exC1F 10) (exC1F 152) = 100 from dist_eval_y1 100 (by norm_num) (by norm_num)]
  refine ⟨by simp [exC1Kp], ?_, ?_, ?_, ?_, ?_, ?_⟩ <;>
    · show _ < _
      norm_num [exC1F]

lemma exC1_eyeSym : eyeSymmetryOf exC1Kp = -100 := by
  unfold eyeSymmetryOf
  rw [exC1Kp_at 168 (by norm_num), exC1Kp_at 263 (by norm_num), exC1Kp_at 33 (by norm_num)]
  exact calculateSymmetry_left_zero 20 (dist_self _)
    (dist_eval_x1 20 (by norm_num) (by norm_num)) (by norm_num)

lemma exC1_symmetry : symmetryScore exC1Kp = -100 := by
  simp only [symmetryScore]
  rw [exC1_eyeSym]
  rw [exC1Kp_at 168 (by norm_num), exC1Kp_at 123 (by norm_num), exC1Kp_at 352 (by norm_num),
    exC1Kp_at 172 (by norm_num), exC1Kp_at 397 (by norm_num), exC1Kp_at 61 (by norm_num),
    exC1Kp_at 291 (by norm_num)]
  rw [show (exC1F 168 : Pt) = ⟨10, 20⟩ from rfl, show (exC1F 123 : Pt) = ⟨10, 20⟩ from rfl,
    show (exC1F 352 : Pt) = ⟨10, 50⟩ from rfl, show (exC1F 172 : Pt) = ⟨10, 20⟩ from rfl,
    show (exC1F 397 : Pt) = ⟨40, 20⟩ from rfl, show (exC1F 61 : Pt) = ⟨10, 20⟩ from rfl,
    show (exC1F 291 : Pt) = ⟨10, -5⟩ from rfl]
  rw [calculateSymmetry_left_zero 30 (dist_self _)
    (dist_eval_y1 30 (by norm_num) (by norm_num)) (by norm_num)]
  rw [calculateSymmetry_left_zero 30 (dist_self _)
    (dist_eval_x2 30 (by norm_num) (by norm_num)) (by norm_num)]
  rw [calculateSymmetry_left_zero 25 (dist_self _)
    (dist_eval_y2 25 (by norm_num) (by norm_num)) (by norm_num)]
  rw [show ((-100:ℝ) + -100 + -100 + -100) / 4 = ((-100 : ℤ) : ℝ) by norm_num]
  rw [jsRound_intCast]
  norm_num

lemma exC1_tilt : canthalTiltOf exC1Kp = -90 := by
  unfold canthalTiltOf
  rw [exC1Kp_at 133 (by norm_num), exC1Kp_at 33 (by norm_num),
    exC1Kp_at 362 (by norm_num), exC1Kp_at 263 (by norm_num)]
  have harg : atan2 (-1) 0 = -(Real.pi / 2) := by
    unfold atan2
    rw [show (⟨0, -1⟩ : ℂ) = -Complex.I from by apply Complex.ext <;> simp]
    exact Complex.arg_neg_I
  have htilt : ∀ a b : ℝ, calculateCanthalTilt ⟨a, b - 1⟩ ⟨a, b⟩ = -90 := by
    intro a b
    unfold calculateCanthalTilt
    rw [show b - 1 - b = (-1 : ℝ) by ring, show a - a = (0:ℝ) by ring, harg]
    field_simp
    ring
  rw [show (exC1F 133 : Pt) = ⟨-10, 20 - 1⟩ from by norm_num [exC1F],
    show (exC1F 362 : Pt) = ⟨10, 20 - 1⟩ from by norm_num [exC1F]]
  rw [show (exC1F 33 : Pt) = ⟨-10, 20⟩ from rfl, show (exC1F 263 : Pt) = ⟨10, 20⟩ from rfl]
  rw [htilt, htilt]
  norm_num

lemma exC1_ear : eyeAspectOf exC1Kp = 0 := by
  unfold eyeAspectOf
  rw [exC1Kp_at 159 (by norm_num), exC1Kp_at 145 (by norm_num), exC1Kp_at 133 (by norm_num),
    exC1Kp_at 33 (by norm_num), exC1Kp_at 386 (by norm_num), exC1Kp_at 374 (by norm_num),
    exC1Kp_at 362 (by norm_num), exC1Kp_at 263 (by norm_num)]
  rw [show dist (exC1F 159) (exC1F 145) = 0 from dist_self _,
    show dist (exC1F 386) (exC1F 374) = 0 from dist_self _]
  norm_num

lemma exC1_eye : eyeScore exC1Kp = -30 := by
  unfold eyeScore
  rw [exC1_tilt, exC1_ear, exC1_eyeSym]
  rw [norm_eval_lo (by norm_num), norm_eval_lo (by norm_num)]
  rw [show (0.4 * 0 + 0.3 * 0 + 0.3 * (-100) : ℝ) = ((-30 : ℤ) : ℝ) by norm_num]
  rw [jsRound_intCast]
  norm_num

lemma exC1_noseMouth : noseMouthGoldenOf exC1Kp = 0 := by
  unfold noseMouthGoldenOf mouthWidthOf noseWidthOf
  rw [exC1Kp_at 61 (by norm_num), exC1Kp_at 291 (by norm_num), exC1Kp_at 102 (by norm_num),
    exC1Kp_at 331 (by norm_num)]
  rw [show dist (exC1F 61) (exC1F 291) = 25 from dist_eval_y2 25 (by norm_num) (by norm_num),
    show dist (exC1F 102) (exC1F 331) = 5 from dist_eval_y1 5 (by norm_num) (by norm_num)]
  apply grScore_eval_zero
  rw [show |(25 / 5 : ℝ) - PHI| = 3.382 from by
    unfold PHI
    rw [abs_of_nonneg (by norm_num)]
    norm_num]
  norm_num

lemma exC1_thirds : facialThirdsScore exC1Kp = 0 := by
  simp only [facialThirdsScore]
  rw [exC1Kp_at 10 (by norm_num), exC1Kp_at 9 (by norm_num), exC1Kp_at 0 (by norm_num),
    exC1Kp_at 152 (by norm_num)]
  rw [show dist (exC1F 10) (exC1F 9) = 2 from dist_eval_y1 2 (by norm_num) (by norm_num),
    show dist (exC1F 9) (exC1F 0) = 2 from dist_eval_y1 2 (by norm_num) (by norm_num),
    show dist (exC1F 0) (exC1F 152) = 96 from dist_eval_y1 96 (by norm_num) (by norm_num)]
  rw [show |(2 : ℝ) - (2 + 2 + 96) / 3| = 94/3 from by
    rw [abs_sub_comm, abs_of_nonneg (by norm_num)]; norm_num]
  rw [show |(96 : ℝ) - (2 + 2 + 96) / 3| = 188/3 from by
    rw [abs_of_nonneg (by norm_num)]; norm_num]
  rw [max_eq_right (by norm_num : (94/3 : ℝ) ≤ 188/3),
    max_eq_right (by norm_num : (94/3 : ℝ) ≤ 188/3)]
  rw [max_eq_left (by norm_num : (100 - 188/3 / ((2 + 2 + 96)/3) * 300 : ℝ) ≤ 0)]
  rw [show (0 : ℝ) = ((0 : ℤ) : ℝ) by norm_num, jsRound_intCast]

lemma exC1_nose : noseScore exC1Kp = 0 := by
  unfold noseScore
  rw [exC1_noseMouth, exC1_thirds]
  rw [show (0.5 * 0 + 0.5 * 0 : ℝ) = ((0 : ℤ) : ℝ) by norm_num, jsRound_intCast]
  norm_num

lemma exC1_jawline : jawlineScore exC1Kp = 0 := by
  unfold jawlineScore jawWidthOf faceWidthOf chinLengthOf faceHeightOf
  rw [exC1Kp_at 172 (by norm_num), exC1Kp_at 397 (by norm_num), exC1Kp_at 234 (by norm_num),
    exC1Kp_at 454 (by norm_num), exC1Kp_at 14 (by norm_num), exC1Kp_at 10 (by norm_num),
    exC1Kp_at 152 (by norm_num)]
  rw [show dist (exC1F 172) (exC1F 397) = 30 from dist_eval_x2 30 (by norm_num) (by norm_num),
    show dist (exC1F 234) (exC1F 454) = 100 from dist_eval_x2 100 (by norm_num) (by norm_num),
    show dist (exC1F 14) (exC1F 152) = 1 from dist_eval_y1 1 (by norm_num) (by norm_num),
    show dist (exC1F 10) (exC1F 152) = 100 from dist_eval_y1 100 (by norm_num) (by norm_num)]
  rw [norm_eval_lo (by norm_num), norm_eval_lo (by norm_num)]
  rw [show (0.7 * 0 + 0.3 * 0 : ℝ) = ((0 : ℤ) : ℝ) by norm_num, jsRound_intCast]
  norm_num

lemma exC1_cheekbones : cheekbonesScore exC1Kp = 17 := by
  unfold cheekbonesScore cheekWidthOf jawWidthOf
  rw [exC1Kp_at 123 (by norm_num), exC1Kp_at 352 (by norm_num), exC1Kp_at 172 (by norm_num),
    exC1Kp_at 397 (by norm_num)]
  rw [show dist (exC1F 123) (exC1F 352) = 30 from dist_eval_y1 30 (by norm_num) (by norm_num),
    show dist (exC1F 172) (exC1F 397) = 30 from dist_eval_x2 30 (by norm_num) (by norm_num)]
  rw [norm_eval_mid (50/3) (by norm_num) (by norm_num) (by norm_num)]
  rw [jsRound_eq 17 (by norm_num) (by norm_num)]
  norm_num

lemma exC1_harmony : harmonyScore exC1Kp = -6 := by
  unfold harmonyScore
  rw [exC1_eye, exC1_nose, exC1_jawline, exC1_cheekbones]
  rw [jsRound_eq (-6) (by norm_num) (by norm_num)]
  norm_num

/-- C1 is false as stated: this keypoint set passes `validateAnatomy` (the
validator does not constrain the symmetry anchor landmarks), yet the
returned symmetry, eye and harmony scores are negative (−100, −30 and −6),
outside the claimed `[0, 100]` range. -/
theorem claim_C1_counterexample :
    validateAnatomy exC1Kp = true ∧
    (analyzeScoresOf exC1Kp exC1Q).symmetry < 0 ∧
    (analyzeScoresOf exC1Kp exC1Q).eye_score < 0 ∧
    (analyzeScoresOf exC1Kp exC1Q).harmony < 0 := by
  refine ⟨exC1Kp_valid, ?_, ?_, ?_⟩
  · show symmetryScore exC1Kp < 0
    rw [exC1_symmetry]
    norm_num
  · show eyeScore exC1Kp < 0
    rw [exC1_eye]
    norm_num
  · show harmonyScore exC1Kp < 0
    rw [exC1_harmony]
    norm_num

/-- Witness for the amended C1 theorem: the concrete keypoint set above
passes validation, and the amended bounds hold at it. -/
theorem claim_C1_score_ranges_amended_witness :
    validateAnatomy exC1Kp = true ∧
    ((0 ≤ (analyzeScoresOf exC1Kp exC1Q).jawline ∧ (analyzeScoresOf exC1Kp exC1Q).jawline ≤ 100) ∧
    (0 ≤ (analyzeScoresOf exC1Kp exC1Q).cheekbones ∧ (analyzeScoresOf exC1Kp exC1Q).cheekbones ≤ 100) ∧
    (0 ≤ (analyzeScoresOf exC1Kp exC1Q).skin_quality ∧ (analyzeScoresOf exC1Kp exC1Q).skin_quality ≤ 100) ∧
    (0 ≤ (analyzeScoresOf exC1Kp exC1Q).golden ∧ (analyzeScoresOf exC1Kp exC1Q).golden ≤ 100) ∧
    (0 ≤ (analyzeScoresOf exC1Kp exC1Q).facial_thirds ∧ (analyzeScoresOf exC1Kp exC1Q).facial_thirds ≤ 100) ∧
    (0 ≤ (analyzeScoresOf exC1Kp exC1Q).facial_fifths ∧ (analyzeScoresOf exC1Kp exC1Q).facial_fifths ≤ 100) ∧
    (0 ≤ (analyzeScoresOf exC1Kp exC1Q).proportions ∧ (analyzeScoresOf exC1Kp exC1Q).proportions ≤ 100) ∧
    (0 ≤ (analyzeScoresOf exC1Kp exC1Q).nose_score ∧ (analyzeScoresOf exC1Kp exC1Q).nose_score ≤ 100) ∧
    (0 ≤ (analyzeScoresOf exC1Kp exC1Q).masculinity ∧ (analyzeScoresOf exC1Kp exC1Q).masculinity ≤ 100) ∧
    (-100 ≤ (analyzeScoresOf exC1Kp exC1Q).symmetry ∧ (analyzeScoresOf exC1Kp exC1Q).symmetry ≤ 100) ∧
    (-30 ≤ (analyzeScoresOf exC1Kp exC1Q).eye_score ∧ (analyzeScoresOf exC1Kp exC1Q).eye_score ≤ 100) ∧
    (-9 ≤ (analyzeScoresOf exC1Kp exC1Q).harmony ∧ (analyzeScoresOf exC1Kp exC1Q).harmony ≤ 100) ∧
    (0 ≤ (analyzeScoresOf exC1Kp exC1Q).overall ∧ (analyzeScoresOf exC1Kp exC1Q).overall ≤ 10) ∧
    ((analyzeScoresOf exC1Kp exC1Q).overall ≤ (analyzeScoresOf exC1Kp exC1Q).potential ∧
      (analyzeScoresOf exC1Kp exC1Q).potential ≤ 10)) :=
  ⟨exC1Kp_valid, claim_C1_score_ranges_amended exC1Kp exC1Q exC1Kp_valid⟩

end ClaimC1Counterexample

section RegularizerLemmas

variable {K : Type} [LinearOrderedField K]

omit [LinearOrderedField K] in
lemma modifyFrom_length (s : List ℕ) (f : Point K → Point K) :
    ∀ (kp : List (Point K)) (n : ℕ), (modifyFrom s f n kp).length = kp.length := by
  intro kp
  induction kp with
  | nil => intro n; rfl
  | cons p ps ih =>
    intro n
    simp [modifyFrom, ih]

omit [LinearOrderedField K] in
lemma modifyPoints_length (s : List ℕ) (f : Point K → Point K) (kp : List (Point K)) :
    (modifyPoints s f kp).length = kp.length :=
  modifyFrom_length s f kp 0

lemma kpAt_modifyFrom (s : List ℕ) (f : Point K → Point K) :
    ∀ (kp : List (Point K)) (n i : ℕ),
      kpAt (modifyFrom s f n kp) i =
        if (n + i) ∈ s ∧ i < kp.length then f (kpAt kp i) else kpAt kp i := by
  intro kp
  induction kp with
  | nil =>
    intro n i
    simp [modifyFrom]
  | cons p ps ih =>
    intro n i
    cases i with
    | zero =>
      simp [modifyFrom, kpAt]
    | succ j =>
      simp only [modifyFrom, kpAt, List.getD_cons_succ, List.length_cons]
      have := ih (n + 1) j
      simp only [kpAt] at this
      rw [this, show n + 1 + j = n + (j + 1) by omega]
      have hlt : j < ps.length ↔ j + 1 < ps.length + 1 := by omega
      by_cases hm : (n + (j + 1)) ∈ s
      · by_cases hj : j < ps.length
        · rw [if_pos ⟨hm, hj⟩, if_pos ⟨hm, hlt.mp hj⟩]
        · rw [if_neg (by tauto), if_neg (fun hc => hj (hlt.mpr hc.2))]
      · rw [if_neg (by tauto), if_neg (by tauto)]

lemma kpAt_modifyPoints (s : List ℕ) (f : Point K → Point K) (kp : List (Point K)) (i : ℕ) :
    kpAt (modifyPoints s f kp) i =
      if i ∈ s ∧ i < kp.length then f (kpAt kp i) else kpAt kp i := by
  unfold modifyPoints
  rw [kpAt_modifyFrom]
  simp

lemma kpAt_modifyPoints_not_mem {s : List ℕ} {f : Point K → Point K} {kp : List (Point K)}
    {i : ℕ} (h : i ∉ s) : kpAt (modifyPoints s f kp) i = kpAt kp i := by
  rw [kpAt_modifyPoints]
  simp [h]

lemma kpAt_modifyPoints_mem {s : List ℕ} {f : Point K → Point K} {kp : List (Point K)}
    {i : ℕ} (h : i ∈ s) (hl : i < kp.length) :
    kpAt (modifyPoints s f kp) i = f (kpAt kp i) := by
  rw [kpAt_modifyPoints]
  simp [h, hl]

omit [LinearOrderedField K] in
lemma modifyFrom_congr_id {s : List ℕ} {f : Point K → Point K} (h : ∀ p, f p = p) :
    ∀ (kp : List (Point K)) (n : ℕ), modifyFrom s f n kp = kp := by
  intro kp
  induction kp with
  | nil => intro n; rfl
  | cons p ps ih =>
    intro n
    simp only [modifyFrom, ih (n + 1)]
    split <;> simp [h]

omit [LinearOrderedField K] in
lemma modifyPoints_congr_id {s : List ℕ} {f : Point K → Point K} (kp : List (Point K))
    (h : ∀ p, f p = p) : modifyPoints s f kp = kp :=
  modifyFrom_congr_id h kp 0

lemma modifyPoints_add_zero_y (s : List ℕ) (kp : List (Point K)) :
    modifyPoints s (fun p => ⟨p.x, p.y + 0⟩) kp = kp :=
  modifyPoints_congr_id kp (fun p => by cases p; simp)

lemma enforceZone_length (idx : List ℕ) (t b : K) (kp : List (Point K)) :
    (enforceZone idx t b kp).length = kp.length := by
  simp only [enforceZone]
  split <;> simp [modifyPoints_length]

lemma cyclopsStep_length (fw : K) (r l : List ℕ) (kp : List (Point K)) :
    (cyclopsStep fw r l kp).length = kp.length := by
  simp only [cyclopsStep]
  split <;> simp [modifyPoints_length]

lemma levelStep_length (fh : K) (r l : List ℕ) (kp : List (Point K)) :
    (levelStep fh r l kp).length = kp.length := by
  simp only [levelStep]
  split <;> simp [modifyPoints_length]

lemma noseStep_length (nzb ezb mg : K) (kp : List (Point K)) :
    (noseStep nzb ezb mg kp).length = kp.length := by
  simp only [noseStep]
  split_ifs <;> simp [modifyPoints_length]

lemma mouthStep_length (mt : K) (kp : List (Point K)) :
    (mouthStep mt kp).length = kp.length := by
  simp only [mouthStep]
  split <;> simp [modifyPoints_length]

lemma chinStep_length (fw : K) (kp : List (Point K)) :
    (chinStep fw kp).length = kp.length := by
  simp only [chinStep]
  split <;> simp [modifyPoints_length]

lemma regularizeLandmarks_length (kp : List (Point K)) :
    (regularizeLandmarks kp).length = kp.length := by
  simp only [regularizeLandmarks]
  rw [chinStep_length, mouthStep_length, noseStep_length, levelStep_length,
    cyclopsStep_length, enforceZone_length, enforceZone_length]

lemma kpAt_enforceZone_not_mem {idx : List ℕ} {t b : K} {kp : List (Point K)} {i : ℕ}
    (h : i ∉ idx) : kpAt (enforceZone idx t b kp) i = kpAt kp i := by
  simp only [enforceZone]
  split
  · exact kpAt_modifyPoints_not_mem h
  · rfl

lemma kpAt_cyclopsStep_not_mem {fw : K} {r l : List ℕ} {kp : List (Point K)} {i : ℕ}
    (hr : i ∉ r) (hl : i ∉ l) : kpAt (cyclopsStep fw r l kp) i = kpAt kp i := by
  simp only [cyclopsStep]
  split
  · rw [kpAt_modifyPoints_not_mem hl, kpAt_modifyPoints_not_mem hr]
  · rfl

lemma kpAt_levelStep_not_mem {fh : K} {r l : List ℕ} {kp : List (Point K)} {i : ℕ}
    (hr : i ∉ r) (hl : i ∉ l) : kpAt (levelStep fh r l kp) i = kpAt kp i := by
  simp only [levelStep]
  split
  · rw [kpAt_modifyPoints_not_mem hl, kpAt_modifyPoints_not_mem hr]
  · rfl

lemma kpAt_noseStep_not_mem {nzb ezb mg : K} {kp : List (Point K)} {i : ℕ}
    (h : i ≠ 1) : kpAt (noseStep nzb ezb mg kp) i = kpAt kp i := by
  have hs : i ∉ ([1] : List ℕ) := by simp [h]
  simp only [noseStep]
  split_ifs <;>
    simp only [kpAt_modifyPoints_not_mem hs]

lemma kpAt_mouthStep_not_mem {mt : K} {kp : List (Point K)} {i : ℕ}
    (h : i ≠ 13) : kpAt (mouthStep mt kp) i = kpAt kp i := by
  have hs : i ∉ ([13] : List ℕ) := by simp [h]
  simp only [mouthStep]
  split
  · exact kpAt_modifyPoints_not_mem hs
  · rfl

lemma kpAt_chinStep_not_mem {fw : K} {kp : List (Point K)} {i : ℕ}
    (h : i ≠ 152) : kpAt (chinStep fw kp) i = kpAt kp i := by
  have hs : i ∉ ([152] : List ℕ) := by simp [h]
  simp only [chinStep]
  split
  · exact kpAt_modifyPoints_not_mem hs
  · rfl

lemma not_mem_allRight {i : ℕ} {c : Prop} [Decidable c] (h1 : i ∉ RIGHT_EYE_INDICES)
    (h2 : i ∉ RIGHT_IRIS_INDICES) :
    i ∉ (if c then RIGHT_EYE_INDICES ++ RIGHT_IRIS_INDICES else RIGHT_EYE_INDICES) := by
  split_ifs
  · intro hm
    rcases List.mem_append.mp hm with hm | hm
    exacts [h1 hm, h2 hm]
  · exact h1

lemma not_mem_allLeft {i : ℕ} {c : Prop} [Decidable c] (h1 : i ∉ LEFT_EYE_INDICES)
    (h2 : i ∉ LEFT_IRIS_INDICES) :
    i ∉ (if c then LEFT_EYE_INDICES ++ LEFT_IRIS_INDICES else LEFT_EYE_INDICES) := by
  split_ifs
  · intro hm
    rcases List.mem_append.mp hm with hm | hm
    exacts [h1 hm, h2 hm]
  · exact h1

lemma enforceZone_eq_self {idx : List ℕ} {t b : K} {kp : List (Point K)}
    (h : zoneShift t b (groupYs idx kp) = 0) : enforceZone idx t b kp = kp := by
  simp only [enforceZone]
  rw [h]
  simp

lemma cyclopsStep_eq_self {fw : K} {r l : List ℕ} {kp : List (Point K)}
    (h : ¬((kpAt kp 362).x - (kpAt kp 133).x < fw * (12/100))) :
    cyclopsStep fw r l kp = kp := by
  simp only [cyclopsStep]
  rw [if_neg h]

lemma levelStep_eq_self {fh : K} {r l : List ℕ} {kp : List (Point K)}
    (h : meanY r kp = meanY l kp ∨ ¬(|meanY r kp - meanY l kp| < fh * (3/100))) :
    levelStep fh r l kp = kp := by
  simp only [levelStep]
  rcases h with heq | hfar
  · split_ifs with hc
    · rw [show (meanY r kp + meanY l kp) / 2 - meanY r kp = 0 by rw [heq]; ring]
      rw [show (meanY r kp + meanY l kp) / 2 - meanY l kp = 0 by rw [heq]; ring]
      rw [modifyPoints_add_zero_y, modifyPoints_add_zero_y]
    · rfl
  · rw [if_neg hfar]

lemma noseStep_eq_self {nzb ezb mg : K} {kp : List (Point K)}
    (h1 : ¬(nzb < (kpAt kp 1).y)) (h2 : ¬((kpAt kp 1).y < ezb)) :
    noseStep nzb ezb mg kp = kp := by
  simp only [noseStep]
  rw [if_neg h1, if_neg h2]

lemma mouthStep_eq_self {mt : K} {kp : List (Point K)}
    (h : ¬((kpAt kp 13).y < mt)) : mouthStep mt kp = kp := by
  simp only [mouthStep]
  rw [if_neg h]

lemma chinStep_eq_self {fw : K} {kp : List (Point K)}
    (h : ¬(fw * (10/100) < |(kpAt kp 152).x - ((kpAt kp 234).x + (kpAt kp 454).x) / 2|)) :
    chinStep fw kp = kp := by
  simp only [chinStep]
  rw [if_neg h]

/-- Every constraint already satisfied means one application of the
regularizer is the identity. -/
lemma regFixed_fixedPoint (kp : List (Point K)) (h : regFixed kp) :
    regularizeLandmarks kp = kp := by
  simp only [regFixed] at h
  obtain ⟨h1, h2, h3, h4, h5, h6, h7, h8⟩ := h
  simp only [regularizeLandmarks]
  rw [enforceZone_eq_self h1, enforceZone_eq_self h2, cyclopsStep_eq_self h3,
    levelStep_eq_self h4, noseStep_eq_self h5 h6, mouthStep_eq_self h7, chinStep_eq_self h8]

lemma noseStep_kpAt_one (nzb ezb mg : K) (kp : List (Point K)) (hlen : 1 < kp.length)
    (hmono : ezb ≤ nzb) :
    (kpAt (noseStep nzb ezb mg kp) 1).y =
      if nzb < (kpAt kp 1).y then nzb
      else if (kpAt kp 1).y < ezb then ezb + mg
      else (kpAt kp 1).y := by
  simp only [noseStep]
  by_cases hA : nzb < (kpAt kp 1).y
  · rw [if_pos hA]
    have hy : (kpAt (modifyPoints [1] (fun p => (⟨p.x, nzb⟩ : Point K)) kp) 1).y = nzb := by
      rw [kpAt_modifyPoints_mem (by simp) hlen]
    rw [hy, if_neg (not_lt.mpr hmono), hy, if_pos hA]
  · rw [if_neg hA]
    by_cases hB : (kpAt kp 1).y < ezb
    · rw [if_pos hB]
      rw [kpAt_modifyPoints_mem (by simp) hlen]
      rw [if_neg hA, if_pos hB]
    · rw [if_neg hB]
      rw [if_neg hA, if_neg hB]

end RegularizerLemmas

section ChinEval

lemma list_eq_of_kpAt {K : Type} [Zero K] (l1 l2 : List (Point K))
    (h : l1.length = l2.length) (hp : ∀ i, i < l1.length → kpAt l1 i = kpAt l2 i) :
    l1 = l2 := by
  apply List.ext_getElem h
  intro i h1 h2
  have hpt := hp i h1
  unfold kpAt at hpt
  rw [List.getD_eq_getElem?_getD, List.getD_eq_getElem?_getD, List.getElem?_eq_getElem h1,
    List.getElem?_eq_getElem h2] at hpt
  exact hpt

/-- Degenerate-face keypoint layout: every landmark sits at `(0, 50)` except
the chin, whose x coordinate is `c`.  Face height and face width are both 0,
so every regularizer constraint except the chin centering is trivially
satisfied. -/
def chinF (c : ℚ) : ℕ → Point ℚ := fun i => if i = 152 then ⟨c, 50⟩ else ⟨0, 50⟩

/-- The 468-point list with chin offset `c`. -/
def chinKp (c : ℚ) : List (Point ℚ) := (List.range 468).map (chinF c)

lemma kpAt_chinKp (c : ℚ) (i : ℕ) (h : i < 468) : kpAt (chinKp c) i = chinF c i :=
  kpAt_range_map _ h

lemma chinKp_length (c : ℚ) : (chinKp c).length = 468 := by
  simp [chinKp]

lemma chinKp_zoneShift_right (c : ℚ) :
    zoneShift (50:ℚ) 50 (groupYs RIGHT_EYE_INDICES (chinKp c)) = 0 := by
  simp [groupYs, RIGHT_EYE_INDICES, chinKp_length, kpAt_chinKp, chinF, zoneShift, List.foldl]

lemma chinKp_zoneShift_left (c : ℚ) :
    zoneShift (50:ℚ) 50 (groupYs LEFT_EYE_INDICES (chinKp c)) = 0 := by
  simp [groupYs, LEFT_EYE_INDICES, chinKp_length, kpAt_chinKp, chinF, zoneShift, List.foldl]

lemma reg_chinKp (c : ℚ) (hc : c ≠ 0) : regularizeLandmarks (chinKp c) = chinKp (c / 2) := by
  have e10y : (kpAt (chinKp c) 10).y = 50 := by rw [kpAt_chinKp c 10 (by norm_num)]; simp [chinF]
  have e152y : (kpAt (chinKp c) 152).y = 50 := by rw [kpAt_chinKp c 152 (by norm_num)]; simp [chinF]
  have e152x : (kpAt (chinKp c) 152).x = c := by rw [kpAt_chinKp c 152 (by norm_num)]; simp [chinF]
  have e234x : (kpAt (chinKp c) 234).x = 0 := by rw [kpAt_chinKp c 234 (by norm_num)]; simp [chinF]
  have e454x : (kpAt (chinKp c) 454).x = 0 := by rw [kpAt_chinKp c 454 (by norm_num)]; simp [chinF]
  have e1y : (kpAt (chinKp c) 1).y = 50 := by rw [kpAt_chinKp c 1 (by norm_num)]; simp [chinF]
  have e13y : (kpAt (chinKp c) 13).y = 50 := by rw [kpAt_chinKp c 13 (by norm_num)]; simp [chinF]
  have e362x : (kpAt (chinKp c) 362).x = 0 := by rw [kpAt_chinKp c 362 (by norm_num)]; simp [chinF]
  have e133x : (kpAt (chinKp c) 133).x = 0 := by rw [kpAt_chinKp c 133 (by norm_num)]; simp [chinF]
  simp only [regularizeLandmarks, chinKp_length, e10y, e152y, e152x, e234x, e454x, e1y, e13y,
    sub_self, abs_zero, zero_mul, add_zero, sub_zero]
  rw [if_neg (by omega : ¬(468 < 468)), if_neg (by omega : ¬(468 < 468))]
  rw [enforceZone_eq_self (chinKp_zoneShift_right c),
    enforceZone_eq_self (chinKp_zoneShift_left c)]
  rw [cyclopsStep_eq_self (by rw [e362x, e133x]; simp)]
  rw [levelStep_eq_self (Or.inr (by rw [zero_mul]; exact not_lt.mpr (abs_nonneg _)))]
  rw [noseStep_eq_self (by rw [e1y]; simp) (by rw [e1y]; simp)]
  rw [mouthStep_eq_self (by rw [e13y]; simp)]
  simp only [chinStep, e152x, e234x, e454x]
  rw [if_pos (by simpa using abs_pos.mpr hc)]
  apply list_eq_of_kpAt
  · rw [modifyPoints_length, chinKp_length, chinKp_length]
  · intro i hi
    rw [modifyPoints_length, chinKp_length] at hi
    rw [kpAt_modifyPoints]
    by_cases h152 : i = 152
    · subst h152
      rw [if_pos ⟨by simp, by simp [chinKp_length]⟩, kpAt_chinKp c 152 (by norm_num),
        kpAt_chinKp (c/2) 152 (by norm_num)]
      unfold chinF
      simp only [if_pos rfl]
      have : c * (1/2) + (0 + 0) / 2 * (1/2) = c / 2 := by ring
      rw [show ((0:ℚ) + 0) / 2 = 0 by norm_num]
      norm_num [Point.mk.injEq]
      ring
    · rw [if_neg (by simp [h152]), kpAt_chinKp c i hi, kpAt_chinKp (c/2) i hi]
      unfold chinF
      rw [if_neg h152, if_neg h152]

lemma regFixed_chinKp0 : regFixed (chinKp 0) := by
  have e10y : (kpAt (chinKp 0) 10).y = 50 := by
    rw [kpAt_chinKp 0 10 (by norm_num)]; simp [chinF]
  have e152y : (kpAt (chinKp 0) 152).y = 50 := by
    rw [kpAt_chinKp 0 152 (by norm_num)]; simp [chinF]
  have e152x : (kpAt (chinKp 0) 152).x = 0 := by
    rw [kpAt_chinKp 0 152 (by norm_num)]; simp [chinF]
  have e234x : (kpAt (chinKp 0) 234).x = 0 := by
    rw [kpAt_chinKp 0 234 (by norm_num)]; simp [chinF]
  have e454x : (kpAt (chinKp 0) 454).x = 0 := by
    rw [kpAt_chinKp 0 454 (by norm_num)]; simp [chinF]
  have e1y : (kpAt (chinKp 0) 1).y = 50 := by
    rw [kpAt_chinKp 0 1 (by norm_num)]; simp [chinF]
  have e13y : (kpAt (chinKp 0) 13).y = 50 := by
    rw [kpAt_chinKp 0 13 (by norm_num)]; simp [chinF]
  have e362x : (kpAt (chinKp 0) 362).x = 0 := by
    rw [kpAt_chinKp 0 362 (by norm_num)]; simp [chinF]
  have e133x : (kpAt (chinKp 0) 133).x = 0 := by
    rw [kpAt_chinKp 0 133 (by norm_num)]; simp [chinF]
  simp only [regFixed, chinKp_length, e10y, e152y, e152x, e234x, e454x, e1y, e13y,
    sub_self, abs_zero, zero_mul, add_zero, sub_zero]
  rw [if_neg (by omega : ¬(468 < 468)), if_neg (by omega : ¬(468 < 468))]
  refine ⟨chinKp_zoneShift_right 0, chinKp_zoneShift_left 0, ?_, ?_, ?_, ?_, ?_, ?_⟩
  · rw [e362x, e133x]
    simp
  · exact Or.inr (not_lt.mpr (abs_nonneg _))
  · simp
  · simp
  · simp
  · simp

/-- C3 is false as stated: on this 468-point set the chin sits 30 units off
the mid-cheek line, the first application pulls it to 15 and the second to
7.5, so the regularizer output is not a fixed point. -/
theorem claim_C3_counterexample :
    468 ≤ (chinKp 30).length ∧
    regularizeLandmarks (regularizeLandmarks (chinKp 30)) ≠
      regularizeLandmarks (chinKp 30) := by
  refine ⟨by rw [chinKp_length], ?_⟩
  rw [reg_chinKp 30 (by norm_num), show (30:ℚ)/2 = 15 by norm_num,
    reg_chinKp 15 (by norm_num)]
  intro h
  have hx := congrArg (fun l => (kpAt l 152).x) h
  simp only at hx
  rw [kpAt_chinKp _ 152 (by norm_num), kpAt_chinKp _ 152 (by norm_num)] at hx
  simp [chinF] at hx
  norm_num at hx

/-- C3 (amended): the regularizer is not idempotent on all complete keypoint
sets; constraints whose repair is partial (the chin is pulled only 50% of the
way to center) can fire again on the second application.  A sufficient
condition for idempotence: when the regularizer's own output already
satisfies every enforced constraint (`regFixed`), the second application
changes nothing.  (This condition is not necessary: opposite zone
violations can cancel exactly against the leveling snap, leaving a fixed
point of the regularizer that still violates the zone constraints.) -/
theorem claim_C3_regularizer_conditional_idempotent {K : Type} [LinearOrderedField K]
    (kp : List (Point K)) (h : regFixed (regularizeLandmarks kp)) :
    regularizeLandmarks (regularizeLandmarks kp) = regularizeLandmarks kp :=
  regFixed_fixedPoint _ h

/-- Witness for the amended C3 theorem at a concrete keypoint set whose
regularized output satisfies all constraints. -/
theorem claim_C3_regularizer_conditional_idempotent_witness :
    regFixed (regularizeLandmarks (chinKp 0)) ∧
    regularizeLandmarks (regularizeLandmarks (chinKp 0)) = regularizeLandmarks (chinKp 0) := by
  have h0 : regularizeLandmarks (chinKp 0) = chinKp 0 :=
    regFixed_fixedPoint _ regFixed_chinKp0
  have hfix : regFixed (regularizeLandmarks (chinKp 0)) := by
    rw [h0]
    exact regFixed_chinKp0
  exact ⟨hfix, claim_C3_regularizer_conditional_idempotent (chinKp 0) hfix⟩

end ChinEval

section ClaimC8

variable {K : Type} [LinearOrderedField K]

/-- Exact behaviour of the regularizer on the nose-tip y coordinate: clamp
to the nose-zone bottom when below it, move to the eye-zone bottom plus the
5% margin when strictly above the eye-zone bottom, otherwise unchanged. -/
lemma regularizeLandmarks_nose_y (kp : List (Point K)) (hlen : 468 ≤ kp.length) :
    (kpAt (regularizeLandmarks kp) 1).y =
      if (kpAt kp 10).y + |(kpAt kp 152).y - (kpAt kp 10).y| * (75/100) < (kpAt kp 1).y
      then (kpAt kp 10).y + |(kpAt kp 152).y - (kpAt kp 10).y| * (75/100)
      else if (kpAt kp 1).y < (kpAt kp 10).y + |(kpAt kp 152).y - (kpAt kp 10).y| * (55/100)
      then (kpAt kp 10).y + |(kpAt kp 152).y - (kpAt kp 10).y| * (55/100) +
        |(kpAt kp 152).y - (kpAt kp 10).y| * (5/100)
      else (kpAt kp 1).y := by
  have h1R : (1:ℕ) ∉ (if 468 < kp.length then RIGHT_EYE_INDICES ++ RIGHT_IRIS_INDICES
      else RIGHT_EYE_INDICES) := not_mem_allRight (by decide) (by decide)
  have h1L : (1:ℕ) ∉ (if 468 < kp.length then LEFT_EYE_INDICES ++ LEFT_IRIS_INDICES
      else LEFT_EYE_INDICES) := not_mem_allLeft (by decide) (by decide)
  simp only [regularizeLandmarks]
  rw [kpAt_chinStep_not_mem (by decide), kpAt_mouthStep_not_mem (by decide)]
  rw [noseStep_kpAt_one]
  · rw [kpAt_levelStep_not_mem h1R h1L, kpAt_cyclopsStep_not_mem h1R h1L,
      kpAt_enforceZone_not_mem h1L, kpAt_enforceZone_not_mem h1R]
  · rw [levelStep_length, cyclopsStep_length, enforceZone_length, enforceZone_length]
    omega
  · have := abs_nonneg ((kpAt kp 152).y - (kpAt kp 10).y)
    linarith

/-- C8 (amended): after `regularizeLandmarks` the nose-tip y lies between
the eye-zone bottom (`faceTop + 0.55·faceHeight`, not the claimed
`+ 5%` line) and the nose-zone bottom (`faceTop + 0.75·faceHeight`).
Precisely: a tip below the 75% line is clamped to it; a tip strictly above
the eye-zone bottom is moved to the eye-zone bottom plus a 5% margin; and
any tip between the 55% and 75% lines — including the band between 55% and
60% that the claim says is clamped — is left unchanged. -/
theorem claim_C8_nose_clamp_amended (kp : List (Point K)) (hlen : 468 ≤ kp.length) :
    ((kpAt (regularizeLandmarks kp) 1).y =
      if (kpAt kp 10).y + |(kpAt kp 152).y - (kpAt kp 10).y| * (75/100) < (kpAt kp 1).y
      then (kpAt kp 10).y + |(kpAt kp 152).y - (kpAt kp 10).y| * (75/100)
      else if (kpAt kp 1).y < (kpAt kp 10).y + |(kpAt kp 152).y - (kpAt kp 10).y| * (55/100)
      then (kpAt kp 10).y + |(kpAt kp 152).y - (kpAt kp 10).y| * (55/100) +
        |(kpAt kp 152).y - (kpAt kp 10).y| * (5/100)
      else (kpAt kp 1).y) ∧
    (kpAt kp 10).y + |(kpAt kp 152).y - (kpAt kp 10).y| * (55/100) ≤
      (kpAt (regularizeLandmarks kp) 1).y ∧
    (kpAt (regularizeLandmarks kp) 1).y ≤
      (kpAt kp 10).y + |(kpAt kp 152).y - (kpAt kp 10).y| * (75/100) := by
  have hchar := regularizeLandmarks_nose_y kp hlen
  have habs := abs_nonneg ((kpAt kp 152).y - (kpAt kp 10).y)
  refine ⟨hchar, ?_, ?_⟩
  · rw [hchar]
    split_ifs with hA hB
    · linarith
    · linarith
    · linarith
  · rw [hchar]
    split_ifs with hA hB
    · linarith
    · linarith
    · linarith

/-- Degenerate landmark layout witnessing C8: face from y=0 (forehead) to
y=100 (chin), nose tip at y=57, inside the band (55%, 60%) that the claim
asserts cannot persist. -/
noncomputable def noseF : ℕ → Point ℚ := fun i =>
  if i = 10 then ⟨0, 0⟩
  else if i = 152 then ⟨0, 100⟩
  else if i = 1 then ⟨0, 57⟩
  else ⟨0, 50⟩

/-- The 468-point nose counterexample set. -/
noncomputable def noseKp : List (Point ℚ) := (List.range 468).map noseF

lemma kpAt_noseKp (i : ℕ) (h : i < 468) : kpAt noseKp i = noseF i :=
  kpAt_range_map noseF h

lemma noseKp_length : noseKp.length = 468 := by simp [noseKp]

/-- C8 is false as stated: the nose tip at 57% of face height is strictly
above the claimed upper limit (the eye-zone bottom plus the 5% margin, at
60%), yet the regularizer leaves it unchanged rather than clamping it to
that nearer bound, and the output lies outside the claimed band. -/
theorem claim_C8_counterexample :
    468 ≤ noseKp.length ∧
    (kpAt noseKp 1).y <
      (kpAt noseKp 10).y + |(kpAt noseKp 152).y - (kpAt noseKp 10).y| * (60/100) ∧
    (kpAt (regularizeLandmarks noseKp) 1).y = (kpAt noseKp 1).y ∧
    (kpAt (regularizeLandmarks noseKp) 1).y ≠
      (kpAt noseKp 10).y + |(kpAt noseKp 152).y - (kpAt noseKp 10).y| * (60/100) := by
  have e10y : (kpAt noseKp 10).y = 0 := by rw [kpAt_noseKp 10 (by norm_num)]; simp [noseF]
  have e152y : (kpAt noseKp 152).y = 100 := by rw [kpAt_noseKp 152 (by norm_num)]; simp [noseF]
  have e1y : (kpAt noseKp 1).y = 57 := by rw [kpAt_noseKp 1 (by norm_num)]; simp [noseF]
  have hlen : 468 ≤ noseKp.length := noseKp_length.ge
  have habs : |(100:ℚ) - 0| = 100 := by norm_num
  have hy := regularizeLandmarks_nose_y noseKp hlen
  rw [e10y, e152y, e1y, habs] at hy
  rw [if_neg (by norm_num), if_neg (by norm_num)] at hy
  refine ⟨hlen, ?_, ?_, ?_⟩
  · rw [e10y, e152y, e1y, habs]
    norm_num
  · rw [hy, e1y]
  · rw [hy, e10y, e152y, habs]
    norm_num

set_option maxRecDepth 8000 in
/-- Witness for the amended C8 theorem at the concrete nose configuration. -/
theorem claim_C8_nose_clamp_amended_witness :
    468 ≤ noseKp.length ∧
    (((kpAt (regularizeLandmarks noseKp) 1).y =
      if (kpAt noseKp 10).y + |(kpAt noseKp 152).y - (kpAt noseKp 10).y| * (75/100) <
          (kpAt noseKp 1).y
      then (kpAt noseKp 10).y + |(kpAt noseKp 152).y - (kpAt noseKp 10).y| * (75/100)
      else if (kpAt noseKp 1).y <
          (kpAt noseKp 10).y + |(kpAt noseKp 152).y - (kpAt noseKp 10).y| * (55/100)
      then (kpAt noseKp 10).y + |(kpAt noseKp 152).y - (kpAt noseKp 10).y| * (55/100) +
        |(kpAt noseKp 152).y - (kpAt noseKp 10).y| * (5/100)
      else (kpAt noseKp 1).y) ∧
    (kpAt noseKp 10).y + |(kpAt noseKp 152).y - (kpAt noseKp 10).y| * (55/100) ≤
      (kpAt (regularizeLandmarks noseKp) 1).y ∧
    (kpAt (regularizeLandmarks noseKp) 1).y ≤
      (kpAt noseKp 10).y + |(kpAt noseKp 152).y - (kpAt noseKp 10).y| * (75/100)) := by
  have hlen : 468 ≤ noseKp.length := noseKp_length.ge
  exact ⟨hlen, claim_C8_nose_clamp_amended noseKp hlen⟩

end ClaimC8

section ClaimC10

/-- C10: the regularizer is pure (it operates on a functional copy — the
input list itself is a value that cannot be mutated in this embedding), it
preserves the length of the keypoint set, and every output point whose index
is outside the touched groups (eye lids, irises, nose tip 1, mouth center
13, chin 152) is equal to the corresponding input point. -/
theorem claim_C10_untouched_points_preserved {K : Type} [LinearOrderedField K]
    (kp : List (Point K)) (i : ℕ) (h : i ∉ touchedIndices) :
    (regularizeLandmarks kp).length = kp.length ∧
    kpAt (regularizeLandmarks kp) i = kpAt kp i := by
  have hR : i ∉ RIGHT_EYE_INDICES := fun hm => h (List.mem_append.mpr (Or.inl hm))
  have hL : i ∉ LEFT_EYE_INDICES := fun hm =>
    h (List.mem_append.mpr (Or.inr (List.mem_append.mpr (Or.inl hm))))
  have hRI : i ∉ RIGHT_IRIS_INDICES := fun hm =>
    h (List.mem_append.mpr (Or.inr (List.mem_append.mpr (Or.inr
      (List.mem_append.mpr (Or.inl hm))))))
  have hLI : i ∉ LEFT_IRIS_INDICES := fun hm =>
    h (List.mem_append.mpr (Or.inr (List.mem_append.mpr (Or.inr
      (List.mem_append.mpr (Or.inr (List.mem_append.mpr (Or.inl hm))))))))
  have h1 : i ≠ 1 := fun he => h (he ▸ (by decide : (1:ℕ) ∈ touchedIndices))
  have h13 : i ≠ 13 := fun he => h (he ▸ (by decide : (13:ℕ) ∈ touchedIndices))
  have h152 : i ≠ 152 := fun he => h (he ▸ (by decide : (152:ℕ) ∈ touchedIndices))
  refine ⟨regularizeLandmarks_length kp, ?_⟩
  simp only [regularizeLandmarks]
  rw [kpAt_chinStep_not_mem h152, kpAt_mouthStep_not_mem h13, kpAt_noseStep_not_mem h1,
    kpAt_levelStep_not_mem (not_mem_allRight hR hRI) (not_mem_allLeft hL hLI),
    kpAt_cyclopsStep_not_mem (not_mem_allRight hR hRI) (not_mem_allLeft hL hLI),
    kpAt_enforceZone_not_mem (not_mem_allLeft hL hLI),
    kpAt_enforceZone_not_mem (not_mem_allRight hR hRI)]

/-- Witness for C10 at index 0 (the upper-lip landmark, untouched by the
regularizer) on a concrete keypoint set. -/
theorem claim_C10_untouched_points_preserved_witness :
    (0 ∉ touchedIndices) ∧
    ((regularizeLandmarks (chinKp 30)).length = (chinKp 30).length ∧
      kpAt (regularizeLandmarks (chinKp 30)) 0 = kpAt (chinKp 30) 0) :=
  ⟨by decide, claim_C10_untouched_points_preserved (chinKp 30) 0 (by decide)⟩

end ClaimC10

section ClaimC2

/-- C2: when the detector returns no faces on both the direct pass and the
−5° rotated retry, `analyzeFace` rejects with `INVALID_FACE_ANGLE`; the
`NO_FACE_DETECTED` member of the error taxonomy is never produced on this
path. -/
theorem claim_C2_empty_detector_invalid_face_angle {Img : Type}
    (det : Img → List (List Pt)) (rotateNeg5 : Img → Img)
    (alignedCanvasOf : Img → List Pt → Img) (img : Img)
    (h1 : det img = []) (h2 : det (rotateNeg5 img) = []) :
    analyzeFacePipeline det rotateNeg5 alignedCanvasOf img =
      Except.error AnalysisError.INVALID_FACE_ANGLE ∧
    analyzeFacePipeline det rotateNeg5 alignedCanvasOf img ≠
      Except.error AnalysisError.NO_FACE_DETECTED := by
  have hmain : analyzeFacePipeline det rotateNeg5 alignedCanvasOf img =
      Except.error AnalysisError.INVALID_FACE_ANGLE := by
    simp only [analyzeFacePipeline, h1, h2, detectionBad]
    simp
  refine ⟨hmain, ?_⟩
  rw [hmain]
  simp

/-- Witness for C2: an always-empty detector over a unit image type. -/
theorem claim_C2_empty_detector_invalid_face_angle_witness :
    ((fun _ : Unit => ([] : List (List Pt))) () = [] ∧
      (fun _ : Unit => ([] : List (List Pt))) (id ()) = []) ∧
    (analyzeFacePipeline (fun _ : Unit => ([] : List (List Pt))) id
        (fun _ _ => ()) () = Except.error AnalysisError.INVALID_FACE_ANGLE ∧
      analyzeFacePipeline (fun _ : Unit => ([] : List (List Pt))) id
        (fun _ _ => ()) () ≠ Except.error AnalysisError.NO_FACE_DETECTED) :=
  ⟨⟨rfl, rfl⟩, claim_C2_empty_detector_invalid_face_angle _ _ _ _ rfl rfl⟩

end ClaimC2

section ClaimC4

/-- C4: over exact reals, `mapPointBack` undoes the forward canonical-canvas
transform exactly, for every landmark set with a positive bounding-box
dimension and every point. -/
theorem claim_C4_alignment_roundtrip (lm : List Pt) (p : Pt)
    (h : 0 < faceMaxDimOf lm) :
    mapPointBack (alignAngleOf lm) (alignScaleOf lm) (alignCenterXOf lm)
      (alignCenterYOf lm)
      (forwardCanvasMap (alignAngleOf lm) (alignScaleOf lm) (alignCenterXOf lm)
        (alignCenterYOf lm) p) = p := by
  have hsd : safeDimOf lm = faceMaxDimOf lm := if_pos h
  have hpos : 0 < alignScaleOf lm := by
    unfold alignScaleOf
    rw [hsd]
    positivity
  have hne : alignScaleOf lm ≠ 0 := ne_of_gt hpos
  have hpyth := Real.sin_sq_add_cos_sq (alignAngleOf lm)
  obtain ⟨px, py⟩ := p
  simp only [mapPointBack, forwardCanvasMap, Real.cos_neg, Real.sin_neg]
  congr 1
  · field_simp
    linear_combination (px - alignCenterXOf lm) * hpyth
  · field_simp
    linear_combination (py - alignCenterYOf lm) * hpyth

/-- A two-point landmark set (bounding box 4 × 3) used to witness C4. -/
noncomputable def lmC4 : List Pt := [⟨0, 0⟩, ⟨4, 3⟩]

lemma lmC4_dim : faceMaxDimOf lmC4 = 4 := by
  simp [lmC4, faceMaxDimOf, bboxMinX, bboxMaxX, bboxMinY, bboxMaxY]
  norm_num

/-- Witness for C4 on a concrete landmark set and point. -/
theorem claim_C4_alignment_roundtrip_witness :
    0 < faceMaxDimOf lmC4 ∧
    mapPointBack (alignAngleOf lmC4) (alignScaleOf lmC4) (alignCenterXOf lmC4)
      (alignCenterYOf lmC4)
      (forwardCanvasMap (alignAngleOf lmC4) (alignScaleOf lmC4)
        (alignCenterXOf lmC4) (alignCenterYOf lmC4) ⟨1, 1⟩) = ⟨1, 1⟩ := by
  have hdim : 0 < faceMaxDimOf lmC4 := by rw [lmC4_dim]; norm_num
  exact ⟨hdim, claim_C4_alignment_roundtrip lmC4 ⟨1, 1⟩ hdim⟩

end ClaimC4

section ClaimC6C7

/-- Sum of the squared Laplacian responses over the interior pixel grid,
written as the specification words it: a double sum over the interior
coordinates `1 ≤ y < h-1`, `1 ≤ x < w-1`. -/
def interiorLapEnergy (gray : List ℚ) (w h : ℕ) : ℚ :=
  ∑ y in Finset.Ico 1 (h - 1), ∑ x in Finset.Ico 1 (w - 1), (lapAt gray w (y * w + x))^2

lemma list_range_map_sum (f : ℕ → ℚ) (n : ℕ) :
    ((List.range n).map f).sum = ∑ i in Finset.range n, f i := by
  induction n with
  | zero => simp
  | succ n ih =>
    rw [List.range_succ, List.map_append, List.sum_append, Finset.sum_range_succ, ih]
    simp

lemma lapVar_eq_interior (gray : List ℚ) (w h : ℕ) :
    lapVar gray w h = interiorLapEnergy gray w h := by
  unfold lapVar interiorLapEnergy
  rw [list_range_map_sum, Finset.sum_Ico_eq_sum_range]
  have hh : h - 1 - 1 = h - 2 := by omega
  rw [hh]
  refine Finset.sum_congr rfl fun j _ => ?_
  rw [list_range_map_sum, Finset.sum_Ico_eq_sum_range]
  have hw : w - 1 - 1 = w - 2 := by omega
  rw [hw]
  refine Finset.sum_congr rfl fun i _ => ?_
  rw [add_comm 1 j, add_comm 1 i]

lemma sum_sub_sq_expand (l : List ℚ) (μ : ℚ) :
    (l.map (fun a => (a - μ)^2)).sum =
      (l.map (fun a => a * a)).sum - 2 * μ * l.sum + l.length * μ^2 := by
  induction l with
  | nil => simp
  | cons a t ih =>
    simp only [List.map_cons, List.sum_cons, ih, List.length_cons]
    push_cast
    ring

lemma sum_sq_nonneg (l : List ℚ) (μ : ℚ) :
    0 ≤ (l.map (fun a => (a - μ)^2)).sum := by
  apply List.sum_nonneg
  intro x hx
  simp only [List.mem_map] at hx
  obtain ⟨a, _, rfl⟩ := hx
  positivity

lemma getD_replicate (n : ℕ) (x : ℚ) (k : ℕ) (h : k < n) :
    (List.replicate n x).getD k 0 = x := by
  rw [List.getD_eq_getElem?_getD, List.getElem?_replicate]
  simp [h]

lemma lapAt_replicate (n w idx : ℕ) (x : ℚ) (hw : 1 ≤ w) (hin : idx + w < n) :
    lapAt (List.replicate n x) w idx = 0 := by
  unfold lapAt
  rw [getD_replicate _ _ _ (by omega), getD_replicate _ _ _ (by omega),
    getD_replicate _ _ _ (by omega), getD_replicate _ _ _ (by omega),
    getD_replicate _ _ _ (by omega)]
  ring

lemma lapVar_replicate (w h n : ℕ) (x : ℚ) (hn : w * h ≤ n) :
    lapVar (List.replicate n x) w h = 0 := by
  unfold lapVar
  apply List.sum_eq_zero
  intro s hs
  simp only [List.mem_map, List.mem_range] at hs
  obtain ⟨j, hj, rfl⟩ := hs
  apply List.sum_eq_zero
  intro t ht
  simp only [List.mem_map, List.mem_range] at ht
  obtain ⟨i, hi, rfl⟩ := ht
  have hiw : i + 1 < w := by omega
  have hjh : j + 3 ≤ h := by omega
  have hin : (j + 1) * w + (i + 1) + w < n :=
    calc (j + 1) * w + (i + 1) + w
        = (j + 2) * w + (i + 1) := by ring
      _ < (j + 2) * w + w := Nat.add_lt_add_left hiw _
      _ = (j + 3) * w := by ring
      _ ≤ h * w := Nat.mul_le_mul_right w hjh
      _ = w * h := Nat.mul_comm h w
      _ ≤ n := hn
  rw [lapAt_replicate n w _ x (by omega) hin]
  simp

/-- C6: on every non-empty pixel buffer, brightness is the mean luminance,
the contrast radicand is the population variance of the luminance (the mean
squared deviation from the mean), the sharpness radicand is the interior
Laplacian energy divided by the TOTAL pixel count, and on a uniform
flat-color buffer covering the `width × height` grid the sharpness radicand
is exactly 0. -/
theorem claim_C6_quality_characterization (img : Raster) (h : img.data ≠ []) :
    (getQualityMetricsSq img).brightness =
      some ((img.data.map lum).sum / (img.data.length : ℚ)) ∧
    (getQualityMetricsSq img).contrastSq =
      some (((img.data.map lum).map
        (fun a => (a - (img.data.map lum).sum / (img.data.length : ℚ))^2)).sum /
        (img.data.length : ℚ)) ∧
    (getQualityMetricsSq img).sharpnessSq =
      some (interiorLapEnergy (img.data.map lum) img.width img.height /
        (img.data.length : ℚ)) ∧
    (∀ c : Rgb, img.data = List.replicate (img.width * img.height) c →
      (getQualityMetricsSq img).sharpnessSq = some 0) := by
  have hlen : img.data.length ≠ 0 := fun h0 => h (List.length_eq_zero.mp h0)
  have hn : ((img.data.length : ℚ)) ≠ 0 := Nat.cast_ne_zero.mpr hlen
  refine ⟨?_, ?_, ?_, ?_⟩
  · simp [getQualityMetricsSq, jsDiv, hn]
  · simp only [getQualityMetricsSq, jsDiv, jsSub, jsMul, jsMax0, if_neg hn]
    have hveq : ((img.data.map lum).map (fun a => a * a)).sum / (img.data.length : ℚ) -
        (img.data.map lum).sum / (img.data.length : ℚ) *
          ((img.data.map lum).sum / (img.data.length : ℚ)) =
        ((img.data.map lum).map
          (fun a => (a - (img.data.map lum).sum / (img.data.length : ℚ))^2)).sum /
          (img.data.length : ℚ) := by
      rw [sum_sub_sq_expand (img.data.map lum)
        ((img.data.map lum).sum / (img.data.length : ℚ)), List.length_map]
      field_simp
      ring
    rw [hveq, max_eq_right (div_nonneg (sum_sq_nonneg _ _) (Nat.cast_nonneg _))]
  · simp only [getQualityMetricsSq, jsDiv, if_neg hn]
    rw [lapVar_eq_interior]
  · intro c hc
    have hwh : img.width * img.height ≠ 0 := by
      intro h0
      rw [hc, h0] at h
      simp at h
    have hcast : ((img.width * img.height : ℕ) : ℚ) ≠ 0 := Nat.cast_ne_zero.mpr hwh
    simp only [getQualityMetricsSq, jsDiv, hc, List.map_replicate, List.length_replicate]
    rw [lapVar_replicate _ _ _ _ (le_refl _), if_neg hcast]
    simp

/-- The 1×1 test raster used to witness C6. -/
def rasterC6 : Raster := ⟨1, 1, [⟨10, 20, 30⟩]⟩

/-- Witness for C6 on a concrete 1×1 raster. -/
theorem claim_C6_quality_characterization_witness :
    rasterC6.data ≠ [] ∧
    ((getQualityMetricsSq rasterC6).brightness =
      some ((rasterC6.data.map lum).sum / (rasterC6.data.length : ℚ)) ∧
    (getQualityMetricsSq rasterC6).contrastSq =
      some (((rasterC6.data.map lum).map
        (fun a => (a - (rasterC6.data.map lum).sum / (rasterC6.data.length : ℚ))^2)).sum /
        (rasterC6.data.length : ℚ)) ∧
    (getQualityMetricsSq rasterC6).sharpnessSq =
      some (interiorLapEnergy (rasterC6.data.map lum) rasterC6.width rasterC6.height /
        (rasterC6.data.length : ℚ)) ∧
    (∀ c : Rgb, rasterC6.data = List.replicate (rasterC6.width * rasterC6.height) c →
      (getQualityMetricsSq rasterC6).sharpnessSq = some 0)) := by
  have hne : rasterC6.data ≠ [] := by simp [rasterC6]
  exact ⟨hne, claim_C6_quality_characterization rasterC6 hne⟩

/-- C7 is false as stated: on a zero-pixel image every division in
`getQualityMetrics` is `0 / 0`, which in JavaScript is `NaN`, and `NaN`
propagates through `Math.max(0, ·)` and `Math.sqrt`; the function therefore
does not return the zero triple. -/
theorem claim_C7_counterexample :
    getQualityMetricsSq ⟨0, 0, []⟩ ≠
      (⟨some 0, some 0, some 0⟩ : QualityMetricsSq) := by
  simp [getQualityMetricsSq, jsDiv, jsSub, jsMul, jsMax0, lapVar]

/-- C7 (amended): on the empty image `getQualityMetrics` indeed does not
throw, but all three metrics come out `NaN` (0/0), not 0. -/
theorem claim_C7_empty_image_nan :
    getQualityMetricsSq ⟨0, 0, []⟩ =
      (⟨none, none, none⟩ : QualityMetricsSq) := by
  simp [getQualityMetricsSq, jsDiv, jsSub, jsMul, jsMax0, lapVar]

end ClaimC6C7

end Looksrate
